import Mathlib

/-!
Verification development for the OpenCompanyBot worker backend.

The embedding models `src/main.py` (the Cloudflare-worker router `Default.fetch`
together with its helper methods and the module-level tables), the UK Companies
House XML gateway client (`CompaniesHouseXMLGateway`), and the scripted agent
team of `src/app/agents/team.py`.

Modelling conventions, used throughout:
* Python dicts parsed from JSON are association lists `List (String × JValue)`;
  `dict.get(k, d)` is `lookupD` / the typed accessors `getStr`, `getBool`, …
  A present field of an unexpected runtime type would raise a `TypeError` or
  `AttributeError` in Python; the typed accessors return the default instead,
  and every theorem below only quantifies over bodies where this difference is
  invisible (the relevant fields are strings / booleans / numbers or absent).
* Sources of non-determinism are explicit parameters: `Rand` carries the bytes
  drawn by `secrets.token_hex` and the index drawn by `random.choice`; `Env`
  carries the wall-clock strings produced by `datetime.now()` formatting, the
  (process-seeded) Python `hash`, and the md5 hex digest function.
* Python float literals appearing in canned response dictionaries are modelled
  as exact rationals; no claim depends on float rounding.
* An uncaught Python exception escaping the handler is `Except.error msg`.
* `await asyncio.sleep(...)` has no observable effect and is dropped.
-/

/-- JSON-like values: the universe of request/response bodies. -/
inductive JValue where
  | null : JValue
  | jb : Bool → JValue
  | ji : Int → JValue
  | jq : Rat → JValue
  | js : String → JValue
  | ja : List JValue → JValue
  | jo : List (String × JValue) → JValue

/-- A JSON object, as parsed from a request body. -/
abbrev JObj := List (String × JValue)

/-- Association-list lookup with default: Python `d.get(k, default)`. -/
def lookupD {α : Type} (l : List (String × α)) (k : String) (d : α) : α :=
  ((l.find? (fun p => p.1 == k)).map (fun p => p.2)).getD d

/-- Python `k in d` for a dict modelled as an association list. -/
def inKeys {α : Type} (l : List (String × α)) (k : String) : Bool :=
  l.any (fun p => p.1 == k)

/-- Python `body.get(k, default)` where the code then uses the value as a string. -/
def getStr (o : JObj) (k : String) (d : String) : String :=
  match lookupD o k JValue.null with
  | JValue.js s => s
  | _ => d

/-- Python `body.get(k, default)` where the code then uses the value as a boolean. -/
def getBool (o : JObj) (k : String) (d : Bool) : Bool :=
  match lookupD o k JValue.null with
  | JValue.jb b => b
  | _ => d

/-- Python `body.get(k, default)` where the code compares the value numerically;
the raw JSON number is kept (Python preserves int vs float). -/
def getNumJ (o : JObj) (k : String) (d : JValue) : JValue :=
  match lookupD o k JValue.null with
  | JValue.ji n => JValue.ji n
  | JValue.jq q => JValue.jq q
  | _ => d

/-- Numeric value of a JSON number, as a rational. -/
def numToRat : JValue → Rat
  | JValue.ji n => (n : Rat)
  | JValue.jq q => q
  | _ => 0

/-- Python `body.get(k, default)` where the code then uses the value as an object. -/
def getObj (o : JObj) (k : String) (d : JObj) : JObj :=
  match lookupD o k JValue.null with
  | JValue.jo f => f
  | _ => d

/-- Field of a JSON object value, for stating theorems about responses. -/
def jField (v : JValue) (k : String) : Option JValue :=
  match v with
  | JValue.jo f => (f.find? (fun p => p.1 == k)).map (fun p => p.2)
  | _ => none

/-- Python `str.lower()` (ASCII-relevant part). -/
def pyLower (s : String) : String := ⟨s.data.map Char.toLower⟩

/-- Python `str.upper()` (ASCII-relevant part). -/
def pyUpper (s : String) : String := ⟨s.data.map Char.toUpper⟩

/-- Python `str.strip()`: drop leading and trailing whitespace. -/
def pyStrip (s : String) : String :=
  ⟨((s.data.dropWhile Char.isWhitespace).reverse.dropWhile Char.isWhitespace).reverse⟩

/-- Python `a.startswith(b)` on the underlying character lists. -/
def listLeads : List Char → List Char → Bool
  | [], _ => true
  | _ :: _, [] => false
  | a :: as, b :: bs => a == b && listLeads as bs

/-- Python `needle in hay` substring test, on character lists. -/
def listHasSeg (needle : List Char) : List Char → Bool
  | [] => needle.isEmpty
  | c :: rest => listLeads needle (c :: rest) || listHasSeg needle rest

/-- Python `s.startswith(pre)`. -/
def strLeads (pre s : String) : Bool := listLeads pre.data s.data

/-- Python `needle in hay` for strings. -/
def strHasSeg (needle hay : String) : Bool := listHasSeg needle.data hay.data

/-- Python `s.split()`: whitespace-separated words, empties dropped. -/
def pyWords (s : String) : List String :=
  ((s.data.splitOnP Char.isWhitespace).filter (fun l => !l.isEmpty)).map
    (fun l => (⟨l⟩ : String))

/-- Python `"" or b` / `a or b` on strings (empty string is falsy). -/
def strOrDefault (a b : String) : String := if a = "" then b else a

/-- The sixteen lowercase hex digits, in value order. -/
def hexDigitChars : List Char := "0123456789abcdef".data

/-- Hex digit of a value below 16. -/
def hexDig (n : Nat) : Char := hexDigitChars.getD n '0'

/-- The two lowercase hex digits of one byte. -/
def byteHex (b : Fin 256) : List Char := [hexDig (b.val / 16), hexDig (b.val % 16)]

/-- Model of `secrets.token_hex` on an explicit byte draw: each byte becomes two
lowercase hex digits.  `secrets.token_hex(n)` corresponds to a draw of
`n` bytes. -/
def token_hex (bytes : List (Fin 256)) : String := ⟨bytes.flatMap byteHex⟩

/-- The module-level `PROVIDERS` table of `src/main.py`. -/
def PROVIDERS : List (String × JValue) :=
  [("uk", JValue.jo
      [("name", JValue.js "Letsy"),
       ("api_endpoint", JValue.js "https://api.letsy.co/formations"),
       ("type", JValue.js "api"),
       ("features", JValue.ja [JValue.js "ltd", JValue.js "llp"]),
       ("virtual_address", JValue.jb true)]),
   ("sg", JValue.jo
      [("name", JValue.js "Singapore Incorporation Services"),
       ("api_endpoint", JValue.js "https://api.singaporeincorp.sg/v1"),
       ("type", JValue.js "api"),
       ("features", JValue.ja [JValue.js "pte_ltd", JValue.js "llp"]),
       ("virtual_address", JValue.jb true),
       ("requirements", JValue.ja [JValue.js "singpass", JValue.js "business_reg"])]),
   ("hk", JValue.jo
      [("name", JValue.js "Hong Kong Company Services"),
       ("api_endpoint", JValue.js "https://api.hkcompanies.gov.hk/v1"),
       ("type", JValue.js "api"),
       ("features", JValue.ja [JValue.js "ltd", JValue.js "company"]),
       ("virtual_address", JValue.jb true),
       ("requirements", JValue.ja [JValue.js "hkid"])]),
   ("ae", JValue.jo
      [("name", JValue.js "UAE Free Zone Services"),
       ("api_endpoint", JValue.js "https://api.uaefreezone.gov.ae/v1"),
       ("type", JValue.js "manual"),
       ("features", JValue.ja [JValue.js "freezone", JValue.js "mainland"]),
       ("virtual_address", JValue.jb true),
       ("requirements", JValue.ja [JValue.js "passport", JValue.js "visa"])]),
   ("us", JValue.jo
      [("name", JValue.js "US State Filing Services"),
       ("api_endpoint", JValue.js "https://api.statefiling.gov/v1"),
       ("type", JValue.js "api"),
       ("features", JValue.ja [JValue.js "llc", JValue.js "corporation"]),
       ("virtual_address", JValue.jb true),
       ("requirements", JValue.ja [JValue.js "ssn", JValue.js "itin"])])]

/-- Python `list(PROVIDERS.keys())`. -/
def provider_keys : List String := PROVIDERS.map (fun p => p.1)

/-- Name of a provider: `PROVIDERS[c]["name"]`. -/
def providerName (c : String) : String := getStr (getObj PROVIDERS c []) "name" ""

/-- Type of a provider: `PROVIDERS[c]["type"]`. -/
def providerType (c : String) : String := getStr (getObj PROVIDERS c []) "type" ""

/-- The module-level `COUNTRY_REQUIREMENTS` table of `src/main.py`. -/
def COUNTRY_REQUIREMENTS : List (String × JValue) :=
  [("uk", JValue.jo
      [("fields", JValue.ja [JValue.js "company_name", JValue.js "company_type",
          JValue.js "directors", JValue.js "shareholders",
          JValue.js "registered_office_address"]),
       ("documents", JValue.ja [JValue.js "passport", JValue.js "proof_of_address"]),
       ("sic_codes", JValue.jb true),
       ("companies_house_fee", JValue.ji 50)]),
   ("sg", JValue.jo
      [("fields", JValue.ja [JValue.js "company_name", JValue.js "company_type",
          JValue.js "shareholders", JValue.js "directors",
          JValue.js "registered_address"]),
       ("documents", JValue.ja [JValue.js "singpass", JValue.js "passport",
          JValue.js "business_profile"]),
       ("acra_fee", JValue.ji 300)]),
   ("hk", JValue.jo
      [("fields", JValue.ja [JValue.js "company_name", JValue.js "company_type",
          JValue.js "shareholders", JValue.js "directors",
          JValue.js "registered_address"]),
       ("documents", JValue.ja [JValue.js "hkid_card", JValue.js "passport",
          JValue.js "address_proof"]),
       ("companies_house_fee", JValue.ji 200)]),
   ("ae", JValue.jo
      [("fields", JValue.ja [JValue.js "company_name", JValue.js "company_type",
          JValue.js "shareholders", JValue.js "directors", JValue.js "freezone"]),
       ("documents", JValue.ja [JValue.js "passport", JValue.js "visa",
          JValue.js "emirates_id"]),
       ("freezone_options", JValue.ja [JValue.js "DMCC", JValue.js "IFZA",
          JValue.js "DAFZA", JValue.js "JAFZA"])]),
   ("us", JValue.jo
      [("fields", JValue.ja [JValue.js "company_name", JValue.js "company_type",
          JValue.js "state", JValue.js "shareholders", JValue.js "registered_agent"]),
       ("documents", JValue.ja [JValue.js "ssn", JValue.js "passport",
          JValue.js "state_id"]),
       ("states", JValue.ja [JValue.js "Delaware", JValue.js "Wyoming",
          JValue.js "Florida", JValue.js "Texas"])])]

/-- The nested `base_prices` table local to `Default._calculate_price`. -/
def base_prices : List (String × List (String × Int)) :=
  [("uk", [("ltd", 50), ("llp", 39)]),
   ("sg", [("pte_ltd", 300), ("llp", 350)]),
   ("hk", [("ltd", 200), ("company", 180)]),
   ("ae", [("freezone", 500), ("mainland", 450)]),
   ("us", [("llc", 150), ("corporation", 200)])]

/-- Shape of the dictionary returned by `Default._calculate_price`:
`total`, `currency`, and the three `breakdown` entries. -/
structure PriceQuote where
  total : Int
  currency : String
  base : Int
  government_fee : Int
  virtual_address : Int

/-- The pricing calculator `Default._calculate_price(country, company_type, virtual)`. -/
def calculate_price (country company_type : String) (virtual : Bool) : PriceQuote :=
  let base := lookupD (lookupD base_prices country []) company_type 100
  let currency := if country = "uk" then "GBP" else "USD"
  let ch_fee : Int := if country = "uk" then 50 else 0
  let va_fee : Int := if virtual then 50 else 0
  ⟨base + ch_fee + va_fee, currency, base, ch_fee, if virtual then va_fee else 0⟩

/-- JSON rendering of the `_calculate_price` result dictionary. -/
def priceToJ (p : PriceQuote) : JValue :=
  JValue.jo
    [("total", JValue.ji p.total),
     ("currency", JValue.js p.currency),
     ("breakdown", JValue.jo
        [("base", JValue.ji p.base),
         ("government_fee", JValue.ji p.government_fee),
         ("virtual_address", JValue.ji p.virtual_address)])]

/-- C1: for every country in {uk, sg, hk, ae, us}, every company-type string
and every boolean `virtual`, `_calculate_price` returns
`total = base + government_fee + (50 if virtual else 0)`, where `base` is the
nested-table lookup defaulting to 100, `government_fee` is 50 exactly for the
UK and 0 otherwise, the currency is GBP exactly for the UK and USD otherwise,
the breakdown fields equal those three addends, and the function is
deterministic (equal inputs give equal outputs). -/
theorem calculate_price_spec (country company_type : String) (virtual : Bool)
    (hc : country ∈ ["uk", "sg", "hk", "ae", "us"]) :
    (calculate_price country company_type virtual).total =
        (calculate_price country company_type virtual).base +
        (calculate_price country company_type virtual).government_fee +
        (if virtual then (50 : Int) else 0) ∧
    (calculate_price country company_type virtual).base =
        lookupD (lookupD base_prices country []) company_type 100 ∧
    (calculate_price country company_type virtual).government_fee =
        (if country = "uk" then (50 : Int) else 0) ∧
    (calculate_price country company_type virtual).virtual_address =
        (if virtual then (50 : Int) else 0) ∧
    (calculate_price country company_type virtual).currency =
        (if country = "uk" then "GBP" else "USD") ∧
    (∀ c t : String, ∀ v : Bool, c = country → t = company_type → v = virtual →
        calculate_price c t v = calculate_price country company_type virtual) := by
  refine ⟨?_, rfl, rfl, ?_, rfl, ?_⟩
  · by_cases h : virtual <;> simp [calculate_price, h]
  · by_cases h : virtual <;> simp [calculate_price, h]
  · intro c t v hc ht hv
    rw [hc, ht, hv]

/-- Witness for C1 at country "uk", type "ltd", virtual address requested. -/
theorem calculate_price_spec_witness :
    ("uk" ∈ ["uk", "sg", "hk", "ae", "us"]) ∧
    ((calculate_price "uk" "ltd" true).total =
        (calculate_price "uk" "ltd" true).base +
        (calculate_price "uk" "ltd" true).government_fee +
        (if true then (50 : Int) else 0) ∧
     (calculate_price "uk" "ltd" true).base =
        lookupD (lookupD base_prices "uk" []) "ltd" 100 ∧
     (calculate_price "uk" "ltd" true).government_fee =
        (if "uk" = "uk" then (50 : Int) else 0) ∧
     (calculate_price "uk" "ltd" true).virtual_address =
        (if true then (50 : Int) else 0) ∧
     (calculate_price "uk" "ltd" true).currency =
        (if "uk" = "uk" then "GBP" else "USD") ∧
     (∀ c t : String, ∀ v : Bool, c = "uk" → t = "ltd" → v = true →
        calculate_price c t v = calculate_price "uk" "ltd" true)) :=
  ⟨by decide, calculate_price_spec "uk" "ltd" true (by decide)⟩

/-- Environment of the running process: the non-random ambient inputs —
formatted wall-clock strings, the process-seeded Python `hash`, and the md5
hex digest.  Each field is one formatting of `datetime.now()` used somewhere
in the code. -/
structure Env where
  nowIso : String
  nowStr : String
  nowMMDD : String
  nowYMD : String
  nowStamp : String
  pyHash : String → Nat
  md5hex : String → String

/-- Agent status enum of `team.py`. -/
inductive AgentStatus where
  | active | busy | offline | processing
deriving DecidableEq

/-- String value of an `AgentStatus` member. -/
def statusValue : AgentStatus → String
  | AgentStatus.active => "active"
  | AgentStatus.busy => "busy"
  | AgentStatus.offline => "offline"
  | AgentStatus.processing => "processing"

/-- Agent role enum of `team.py`. -/
inductive AgentRole where
  | ceo | sales | support | registration | compliance | payment | accounting | marketing
deriving DecidableEq

/-- String value of an `AgentRole` member. -/
def roleValue : AgentRole → String
  | AgentRole.ceo => "ceo"
  | AgentRole.sales => "sales"
  | AgentRole.support => "support"
  | AgentRole.registration => "registration"
  | AgentRole.compliance => "compliance"
  | AgentRole.payment => "payment"
  | AgentRole.accounting => "accounting"
  | AgentRole.marketing => "marketing"

/-- Python `str(role)` of an enum member, as used in the role-not-found
message. -/
def roleRepr : AgentRole → String
  | AgentRole.ceo => "AgentRole.CEO"
  | AgentRole.sales => "AgentRole.SALES"
  | AgentRole.support => "AgentRole.SUPPORT"
  | AgentRole.registration => "AgentRole.REGISTRATION"
  | AgentRole.compliance => "AgentRole.COMPLIANCE"
  | AgentRole.payment => "AgentRole.PAYMENT"
  | AgentRole.accounting => "AgentRole.ACCOUNTING"
  | AgentRole.marketing => "AgentRole.MARKETING"

/-- The `AgentTask` dataclass of `team.py`; datetimes are strings. -/
structure AgentTask where
  task_id : String
  agent_role : AgentRole
  description : String
  status : String
  created_at : String
  completed_at : Option String
  result : Option JValue
  metadata : JObj

/-- The `Agent` dataclass of `team.py`. -/
structure Agent where
  name : String
  role : AgentRole
  avatar : String
  status : AgentStatus
  tasks_completed : Nat
  rating : Rat
  specialty : String
  description : String
  capabilities : List String
  current_task : Option AgentTask

/-- Outcome of a subclass `_execute_task` call: a returned dictionary or a
raised exception with its message. -/
inductive ExecResult where
  | ok : JValue → ExecResult
  | exn : String → ExecResult

/-- The error dictionary `{"error": str(e)}`. -/
def errDict (m : String) : JValue := JValue.jo [("error", JValue.js m)]

/-- Model of `BaseAgent.process_task`: takes the agent and task states, the
outcome of `_execute_task`, and the completion time; returns the final agent
state, the final task state, and the returned dictionary.  The transient
`PROCESSING` status and `current_task` assignment made before the `try` block
are overwritten on every path and are not observable afterwards. -/
def process_task (a : Agent) (t : AgentTask) (ex : ExecResult) (now : String) :
    Agent × AgentTask × JValue :=
  match ex with
  | ExecResult.ok r =>
      (⟨a.name, a.role, a.avatar, AgentStatus.active, a.tasks_completed + 1, a.rating,
        a.specialty, a.description, a.capabilities, none⟩,
       ⟨t.task_id, t.agent_role, t.description, "completed", t.created_at, some now,
        some r, t.metadata⟩,
       r)
  | ExecResult.exn m =>
      (⟨a.name, a.role, a.avatar, AgentStatus.active, a.tasks_completed, a.rating,
        a.specialty, a.description, a.capabilities, none⟩,
       ⟨t.task_id, t.agent_role, t.description, "failed", t.created_at, t.completed_at,
        some (errDict m), t.metadata⟩,
       errDict m)

/-- The body of `CEOAgent._execute_task`. -/
def ceo_execute (task : AgentTask) : ExecResult :=
  if strLeads "analyze_performance" task.description then
    ExecResult.ok (JValue.jo
      [("total_tasks", JValue.ji 1247),
       ("successful_tasks", JValue.ji 1231),
       ("success_rate", JValue.jq 98.7),
       ("avg_processing_time", JValue.js "2.3 days"),
       ("customer_satisfaction", JValue.jq 4.9),
       ("revenue_growth", JValue.js "+23%"),
       ("active_agents", JValue.ji 6),
       ("recommendations", JValue.ja
          [JValue.js "Increase payment processing speed",
           JValue.js "Add more country support",
           JValue.js "Enhance KYC verification"])])
  else
    ExecResult.ok (JValue.jo [("message", JValue.js "Task processed by CEO Agent")])

/-- The body of `SalesAgent._execute_task`. -/
def sales_execute (task : AgentTask) : ExecResult :=
  if strLeads "qualify_lead" task.description then
    ExecResult.ok (JValue.jo
      [("qualified", JValue.jb true),
       ("score", JValue.ji 85),
       ("recommendation", JValue.js "hot"),
       ("next_action", JValue.js "schedule_demo"),
       ("pricing_tier", JValue.js "premium"),
       ("expected_value", JValue.js "$599")])
  else if strLeads "handle_inquiry" task.description then
    ExecResult.ok (JValue.jo
      [("response", JValue.js "Thank you for your interest in OpenCompanyBot! We help AI agents and entrepreneurs register companies in UK, Singapore, HK, UAE, and USA. Our process takes 3-5 days and we accept USDT payments. How can I assist you today?"),
       ("suggested_countries", JValue.ja
          [JValue.js "UK", JValue.js "SG", JValue.js "HK"]),
       ("next_step", JValue.js "qualify_lead")])
  else
    ExecResult.ok (JValue.jo [("message", JValue.js "Lead processed by Sales Agent")])

/-- The body of `SupportAgent._execute_task`.  `issue.split()[0]` raises an
`IndexError` when the issue string has no words. -/
def support_execute (task : AgentTask) : ExecResult :=
  if strLeads "handle_ticket" task.description then
    let ticket_id := getStr task.metadata "ticket_id" "unknown"
    let issue := getStr task.metadata "issue" ""
    let responses : List (String × String) :=
      [("payment", "I've checked your payment and it's being processed. You'll receive confirmation within 24 hours."),
       ("registration", "Your company registration is in progress. Current status: Documents verified, awaiting government approval."),
       ("kyc", "Your KYC documents have been received and are being reviewed. This typically takes 2-4 hours."),
       ("default", "Thank you for reaching out. I'm looking into this for you right now.")]
    match (pyWords issue).head? with
    | none => ExecResult.exn "list index out of range"
    | some w =>
        let response := lookupD responses (pyLower w)
          "Thank you for reaching out. I'm looking into this for you right now."
        ExecResult.ok (JValue.jo
          [("ticket_id", JValue.js ticket_id),
           ("status", JValue.js "resolved"),
           ("response", JValue.js response),
           ("satisfaction_score", JValue.jq 4.8),
           ("follow_up_required", JValue.jb false)])
  else if strLeads "faq" task.description then
    ExecResult.ok (JValue.jo
      [("question", JValue.js "How long does company registration take?"),
       ("answer", JValue.js "Most company registrations are completed within 3-5 business days. UK: 3-5 days, Singapore: 1-3 days, Hong Kong: 1-2 days, UAE: 5-7 days, USA: 3-5 days."),
       ("related_questions", JValue.ja
          [JValue.js "What documents do I need?",
           JValue.js "Can I register without being resident?",
           JValue.js "What payment methods do you accept?"])])
  else
    ExecResult.ok (JValue.jo [("message", JValue.js "Support ticket handled")])

/-- Zero-padded decimal rendering: Python format spec `:0Nd` for a
non-negative value. -/
def padNum (w : Nat) (n : Nat) : String :=
  let s := toString n
  (⟨List.replicate (w - s.length) '0'⟩ : String) ++ s

/-- The body of `RegistrationAgent._execute_task`. -/
def registration_execute (env : Env) (task : AgentTask) : ExecResult :=
  if strLeads "register_company" task.description then
    let country := getStr task.metadata "country" "uk"
    let company_name := getStr task.metadata "company_name" "New Company Ltd"
    let statuses : List (String × JValue) :=
      [("uk", JValue.jo
          [("status", JValue.js "incorporation_submitted"),
           ("eta", JValue.js "3-5 business days"),
           ("company_number", JValue.js
              ("OC" ++ env.nowMMDD ++ padNum 4 (env.pyHash company_name % 10000)))]),
       ("sg", JValue.jo
          [("status", JValue.js "awaiting_acra"),
           ("eta", JValue.js "1-3 business days"),
           ("registration_number", JValue.js
              ("2026" ++ padNum 5 (env.pyHash company_name % 100000)))]),
       ("hk", JValue.jo
          [("status", JValue.js "processing"),
           ("eta", JValue.js "1-2 business days"),
           ("company_number", JValue.js
              ("CR" ++ padNum 6 (env.pyHash company_name % 1000000)))]),
       ("ae", JValue.jo
          [("status", JValue.js "freezone_approval"),
           ("eta", JValue.js "5-7 business days"),
           ("license_number", JValue.js
              ("DMCC-" ++ padNum 4 (env.pyHash company_name % 10000)))]),
       ("us", JValue.jo
          [("status", JValue.js "filed"),
           ("eta", JValue.js "3-5 business days"),
           ("ein", JValue.js (padNum 9 (env.pyHash company_name % 100000000)))])]
    let ukStatus := lookupD statuses "uk" JValue.null
    ExecResult.ok (JValue.jo
      [("status", JValue.js "success"),
       ("country", JValue.js country),
       ("company_name", JValue.js company_name),
       ("incorporation", lookupD statuses country ukStatus),
       ("next_steps", JValue.ja
          [JValue.js "Document verification (1-2 hours)",
           JValue.js "Government submission",
           JValue.js "Certificate generation"])])
  else if strLeads "check_status" task.description then
    ExecResult.ok (JValue.jo
      [("status", JValue.js "processing"),
       ("progress", JValue.ji 65),
       ("current_step", JValue.js "Document verification"),
       ("estimated_completion", JValue.js "2 days")])
  else
    ExecResult.ok (JValue.jo [("message", JValue.js "Registration processed")])

/-- The body of `ComplianceAgent._execute_task`. -/
def compliance_execute (env : Env) (task : AgentTask) : ExecResult :=
  if strLeads "verify_kyc" task.description then
    let applicant_name := getStr task.metadata "applicant_name" "Applicant"
    ExecResult.ok (JValue.jo
      [("status", JValue.js "approved"),
       ("verification_id", JValue.js
          ("KYC-" ++ env.nowYMD ++ "-" ++ padNum 4 (env.pyHash applicant_name % 10000))),
       ("risk_score", JValue.ji 15),
       ("risk_level", JValue.js "low"),
       ("checks_passed", JValue.ja
          [JValue.js "Identity verification",
           JValue.js "Document authenticity",
           JValue.js "AML screening",
           JValue.js "Sanctions check",
           JValue.js "PEP check"]),
       ("verification_level", JValue.js "standard"),
       ("expires_at", JValue.js "2027-02-23")])
  else if strLeads "risk_assessment" task.description then
    ExecResult.ok (JValue.jo
      [("risk_level", JValue.js "low"),
       ("score", JValue.ji 15),
       ("factors", JValue.jo
          [("country_risk", JValue.js "low"),
           ("business_type", JValue.js "low"),
           ("beneficiary_risk", JValue.js "low")]),
       ("recommendation", JValue.js "approve")])
  else
    ExecResult.ok (JValue.jo [("message", JValue.js "Compliance check completed")])

/-- The body of `PaymentAgent._execute_task`.  The float product
`amount * 1.02` is modelled as an exact rational product. -/
def payment_execute (env : Env) (task : AgentTask) : ExecResult :=
  if strLeads "process_payment" task.description then
    let amount := getNumJ task.metadata "amount" (JValue.ji 0)
    let currency := getStr task.metadata "currency" "USDT"
    ExecResult.ok (JValue.jo
      [("status", JValue.js "confirmed"),
       ("transaction_id", JValue.js ("TX-" ++ env.nowStamp)),
       ("amount", amount),
       ("currency", JValue.js currency),
       ("network", JValue.js "TRC20"),
       ("confirmations", JValue.ji 12),
       ("usd_value", if currency = "USDT" then JValue.jq (numToRat amount * 1.02) else amount),
       ("processing_time", JValue.js "2 minutes")])
  else if strLeads "create_invoice" task.description then
    ExecResult.ok (JValue.jo
      [("invoice_id", JValue.js
          ("INV-" ++ env.nowYMD ++ "-" ++ padNum 3 (env.pyHash env.nowStr % 1000))),
       ("payment_address", JValue.js "TNPmM9x2Rk5wLw5xYJ8K9zN3vH2Q6R4T7"),
       ("network", JValue.js "TRC20"),
       ("expires_in", JValue.ji 3600),
       ("amount", getNumJ task.metadata "amount" (JValue.ji 149))])
  else
    ExecResult.ok (JValue.jo [("message", JValue.js "Payment processed")])

/-- The body of `MarketingAgent._execute_task`. -/
def marketing_execute (task : AgentTask) : ExecResult :=
  if strLeads "generate_content" task.description then
    let content_type := getStr task.metadata "type" "social"
    let socialText := "🚀 Give Your AI Its Own Company!\n\nOpenCompanyBot enables AI agents to legally own and operate businesses worldwide.\n\n✅ UK, SG, HK, UAE, USA\n✅ USDT Payments\n✅ 3-5 Day Processing\n\nStart today: opencompanybot.com"
    let contents : List (String × String) :=
      [("social", socialText),
       ("blog", "How AI Agents Can Own Companies: A Complete Guide\n\nThe future of business is here. Learn how AI agents can now legally operate companies..."),
       ("email", "Subject: Give Your AI Its Own Company\n\nDear Entrepreneur,\n\nWe're revolutionizing company registration...")]
    ExecResult.ok (JValue.jo
      [("content", JValue.js (lookupD contents content_type socialText)),
       ("platform", JValue.js "twitter"),
       ("engagement_prediction", JValue.jq 8.5),
       ("hashtags", JValue.ja
          [JValue.js "#AI", JValue.js "#CompanyRegistration",
           JValue.js "#Web3", JValue.js "#Startup"])])
  else if strLeads "campaign_report" task.description then
    ExecResult.ok (JValue.jo
      [("total_reach", JValue.ji 125000),
       ("engagement_rate", JValue.jq 4.2),
       ("conversions", JValue.ji 127),
       ("top_country", JValue.js "United Kingdom"),
       ("top_source", JValue.js "Twitter")])
  else
    ExecResult.ok (JValue.jo [("message", JValue.js "Marketing task completed")])

/-- Dispatch to the `_execute_task` of the agent registered for a role in
`AgentTeam.__init__`; `none` when no agent holds the role (only
`ACCOUNTING`). -/
def run_execute (role : AgentRole) (env : Env) (t : AgentTask) : Option ExecResult :=
  match role with
  | AgentRole.ceo => some (ceo_execute t)
  | AgentRole.sales => some (sales_execute t)
  | AgentRole.support => some (support_execute t)
  | AgentRole.registration => some (registration_execute env t)
  | AgentRole.compliance => some (compliance_execute env t)
  | AgentRole.payment => some (payment_execute env t)
  | AgentRole.marketing => some (marketing_execute t)
  | AgentRole.accounting => none

/-- The dictionary returned by `AgentTeam.process_task(role, task)`: the
execution result, the `{"error": str(e)}` dictionary when `_execute_task`
raised, or the role-not-found error. -/
def team_process_value (role : AgentRole) (env : Env) (t : AgentTask) : JValue :=
  match run_execute role env t with
  | some (ExecResult.ok r) => r
  | some (ExecResult.exn m) => errDict m
  | none => errDict ("Agent role " ++ roleRepr role ++ " not found")

/-- C10: after `BaseAgent.process_task` returns — whether `_execute_task`
succeeded or raised — the agent's status is back to ACTIVE and its
`current_task` is `None`; on success `tasks_completed` increases by exactly 1
and the task ends `completed` with a non-None result, while on an exception
`tasks_completed` is unchanged and the task ends `failed` with the
`{"error": ...}` dictionary as its result. -/
theorem process_task_spec (a : Agent) (t : AgentTask) (ex : ExecResult) (now : String) :
    (process_task a t ex now).1.status = AgentStatus.active ∧
    (process_task a t ex now).1.current_task = none ∧
    (match ex with
     | ExecResult.ok r =>
         (process_task a t ex now).1.tasks_completed = a.tasks_completed + 1 ∧
         (process_task a t ex now).2.1.status = "completed" ∧
         (process_task a t ex now).2.1.result = some r ∧
         (process_task a t ex now).2.1.result ≠ none
     | ExecResult.exn m =>
         (process_task a t ex now).1.tasks_completed = a.tasks_completed ∧
         (process_task a t ex now).2.1.status = "failed" ∧
         (process_task a t ex now).2.1.result = some (errDict m)) := by
  cases ex <;> simp [process_task]

/-- Object fields of a JSON value (empty for non-objects). -/
def asObj : JValue → JObj
  | JValue.jo f => f
  | _ => []

/-- Array elements of a JSON value (empty for non-arrays). -/
def asArr : JValue → List JValue
  | JValue.ja l => l
  | _ => []

/-- Python `s[:n]` by code points. -/
def pyTake (n : Nat) (s : String) : String := ⟨s.data.take n⟩

/-- Rounding to one decimal, modelling Python `round(x, 1)` (Python rounds
floats half-to-even; the difference is invisible to every claim). -/
def pyRound1 (q : Rat) : Rat := ((round (10 * q) : Int) : Rat) / 10

/-- Initial `CEOAgent` state from its `__init__`. -/
def ceoAgent : Agent :=
  ⟨"Athena", AgentRole.ceo, "👑", AgentStatus.active, 0, 5,
   "Strategic Decision Making",
   "AI Chief Executive overseeing all operations, making strategic decisions, and coordinating other agents.",
   ["Strategic planning", "Team coordination", "Performance monitoring",
    "Decision making", "Risk assessment"], none⟩

/-- Initial `SalesAgent` state from its `__init__`. -/
def salesAgent : Agent :=
  ⟨"Marcus", AgentRole.sales, "💼", AgentStatus.active, 0, 5,
   "Customer Acquisition & Conversion",
   "AI Sales representative handling inquiries, demonstrations, and converting leads to customers.",
   ["Lead qualification", "Product demonstration", "Pricing consultation",
    "Custom solutions", "Follow-up management"], none⟩

/-- Initial `SupportAgent` state from its `__init__`. -/
def supportAgent : Agent :=
  ⟨"Emma", AgentRole.support, "🎧", AgentStatus.active, 0, 5,
   "Customer Success",
   "AI Support specialist resolving customer issues, answering questions, and ensuring satisfaction.",
   ["Technical troubleshooting", "FAQ responses", "Issue escalation",
    "Ticket management", "Customer feedback"], none⟩

/-- Initial `RegistrationAgent` state from its `__init__`. -/
def registrationAgent : Agent :=
  ⟨"Victor", AgentRole.registration, "📋", AgentStatus.active, 0, 5,
   "Company Incorporation",
   "AI specialist managing company registration workflows across multiple jurisdictions.",
   ["UK Companies House integration", "Singapore ACRA filing",
    "Hong Kong Companies House", "UAE Free Zone registration", "US LLC formation"], none⟩

/-- Initial `ComplianceAgent` state from its `__init__`. -/
def complianceAgent : Agent :=
  ⟨"Clark", AgentRole.compliance, "🛡️", AgentStatus.active, 0, 5,
   "KYC/AML Compliance",
   "AI compliance officer handling identity verification, AML checks, and regulatory compliance.",
   ["Identity verification", "Document authentication", "AML screening",
    "Sanctions check", "Risk assessment"], none⟩

/-- Initial `PaymentAgent` state from its `__init__`. -/
def paymentAgent : Agent :=
  ⟨"Crypto", AgentRole.payment, "₿", AgentStatus.active, 0, 5,
   "USDT Payment Processing",
   "AI payment specialist handling USDT transactions, crypto payments, and financial reconciliation.",
   ["USDT TRC20/ERC20", "Payment verification", "Currency conversion",
    "Refund processing", "Financial reporting"], none⟩

/-- Initial `MarketingAgent` state from its `__init__`. -/
def marketingAgent : Agent :=
  ⟨"Spark", AgentRole.marketing, "📢", AgentStatus.active, 0, 5,
   "Growth & Engagement",
   "AI marketing specialist driving growth, managing campaigns, and engaging with the community.",
   ["Social media management", "Content creation", "Campaign optimization",
    "Analytics & reporting", "Community engagement"], none⟩

/-- The freshly constructed global `agent_team`, in dictionary insertion
order. -/
def initialTeam : List Agent :=
  [ceoAgent, salesAgent, supportAgent, registrationAgent, complianceAgent,
   paymentAgent, marketingAgent]

/-- The dictionary built by `Agent.to_dict`. -/
def agent_to_dict (a : Agent) : JValue :=
  JValue.jo
    [("name", JValue.js a.name),
     ("role", JValue.js (roleValue a.role)),
     ("avatar", JValue.js a.avatar),
     ("status", JValue.js (statusValue a.status)),
     ("tasks_completed", JValue.ji a.tasks_completed),
     ("rating", JValue.jq a.rating),
     ("specialty", JValue.js a.specialty),
     ("description", JValue.js a.description),
     ("capabilities", JValue.ja (a.capabilities.map JValue.js)),
     ("current_task",
        match a.current_task with
        | some t => JValue.js t.task_id
        | none => JValue.null)]

/-- The list built by `AgentTeam.get_team_status`. -/
def get_team_status (team : List Agent) : JValue :=
  JValue.ja (team.map agent_to_dict)

/-- The dictionary built by `AgentTeam.get_team_summary`. -/
def get_team_summary (team : List Agent) : JValue :=
  let total : Nat := team.foldl (fun acc a => acc + a.tasks_completed) 0
  let avg : Rat := (team.foldl (fun acc a => acc + a.rating) 0) / (team.length : Rat)
  JValue.jo
    [("team_size", JValue.ji team.length),
     ("total_tasks_completed", JValue.ji total),
     ("average_rating", JValue.jq (pyRound1 avg)),
     ("active_agents", JValue.ji
        ((team.filter (fun a => a.status == AgentStatus.active)).length)),
     ("busy_agents", JValue.ji
        ((team.filter (fun a => a.status == AgentStatus.busy)).length))]

/-- An element tree node: tag, attributes, text, children (text `""` stands
for Python `None`/empty, which serialize identically here because every
element in this tree either has children or a text assignment). -/
inductive XNode where
  | elem : String → List (String × String) → String → List XNode → XNode

/-- Text escaping done by `xml.etree.ElementTree` serialization. -/
def xmlEscape (s : String) : String :=
  ⟨s.data.flatMap (fun c =>
    if c = '&' then ['&', 'a', 'm', 'p', ';']
    else if c = '<' then ['&', 'l', 't', ';']
    else if c = '>' then ['&', 'g', 't', ';']
    else [c])⟩

mutual

/-- Serialization of one node, as `ET.tostring(..., encoding='unicode')`
renders it: self-closing exactly when the text is empty and there are no
children. -/
def xserialize : XNode → String
  | XNode.elem tag attrs text children =>
      let attrStr := String.join (attrs.map (fun p => " " ++ p.1 ++ "=\"" ++ p.2 ++ "\""))
      if text = "" && children.isEmpty then
        "<" ++ tag ++ attrStr ++ " />"
      else
        "<" ++ tag ++ attrStr ++ ">" ++ xmlEscape text ++
          xserializeList children ++ "</" ++ tag ++ ">"

/-- Serialization of a child list, in order. -/
def xserializeList : List XNode → String
  | [] => ""
  | x :: xs => xserialize x ++ xserializeList xs

end

/-- Digest helper `CompaniesHouseXMLGateway._generate_digest`. -/
def generate_digest (env : Env) (data : String) : String := pyUpper (env.md5hex data)

/-- Model of `CompaniesHouseXMLGateway.build_incorporation_xml`: builds the
GovTalk incorporation message and returns `(xml_string, transaction_id)`.
The transaction id draws `secrets.token_hex(8)`. -/
def build_incorporation_xml (presenter_id auth_code : String) (env : Env)
    (txnBytes : List (Fin 256)) (company_data : JObj) : String × String :=
  let transaction_id := "INC-" ++ pyUpper (token_hex txnBytes)
  let address := getObj company_data "registered_office_address" []
  let directors := asArr (lookupD company_data "directors" (JValue.ja []))
  let root := XNode.elem "GovTalkMessage"
    [("xmlns", "http://www.govtalk.gov.uk/schemas/govtalk/govtalkheader")] ""
    [XNode.elem "EnvelopeVersion" [] "2.0" [],
     XNode.elem "Header" [] ""
       [XNode.elem "SenderDetails" [] ""
          [XNode.elem "IDAuthentication" [] ""
             [XNode.elem "SenderID" [] presenter_id [],
              XNode.elem "Authentication" [] ""
                [XNode.elem "Method" [] "MD5" [],
                 XNode.elem "Value" []
                   (generate_digest env (auth_code ++ env.nowStamp)) []]]],
        XNode.elem "TransactionID" [] transaction_id []],
     XNode.elem "GovTalkDetails" [] ""
       [XNode.elem "KeyStore" [] ""
          [XNode.elem "Key" [("Type", "Service")] "Incorporation" []]],
     XNode.elem "Body" [] ""
       [XNode.elem "IncorporationRequest" [] ""
          [XNode.elem "CompanyName" [] (getStr company_data "company_name" "") [],
           XNode.elem "CompanyType" [] (getStr company_data "company_type" "ltd") [],
           XNode.elem "RegisteredOfficeAddress" [] ""
             [XNode.elem "AddressLine1" [] (getStr address "address_line_1" "") [],
              XNode.elem "Locality" [] (getStr address "locality" "") [],
              XNode.elem "PostalCode" [] (getStr address "postal_code" "") []],
           XNode.elem "Directors" [] ""
             (directors.map (fun d =>
                XNode.elem "Director" [] ""
                  [XNode.elem "Name" [] ""
                     [XNode.elem "Forename" [] (getStr (asObj d) "forename" "") [],
                      XNode.elem "Surname" [] (getStr (asObj d) "surname" "") []]])),
           XNode.elem "IdentityVerification" [] ""
             [XNode.elem "Status" [] "VERIFIED" []]]]]
  ("<?xml version=\"1.0\" encoding=\"UTF-8\"?>\n" ++ xserialize root, transaction_id)

/-- Model of `CompaniesHouseXMLGateway.incorporate_company` in test mode (the
configuration of the module-level `xml_gateway` instance): builds the XML
locally and returns the simulated-submission dictionary.  No network request
exists on this path. -/
def incorporate_company_result (presenter_id auth_code : String) (env : Env)
    (txnBytes : List (Fin 256)) (company_data : JObj) : JObj :=
  let built := build_incorporation_xml presenter_id auth_code env txnBytes company_data
  [("status", JValue.js "submitted"),
   ("transaction_id", JValue.js built.2),
   ("company_number", JValue.js "PENDING"),
   ("message", JValue.js "Test mode: In production, this would submit to Companies House XML Gateway"),
   ("xml_preview", JValue.js (pyTake 200 built.1 ++ "...")),
   ("test_mode", JValue.jb true),
   ("next_steps", JValue.ja
      [JValue.js "1. Apply for Presenter ID at Companies House",
       JValue.js "2. Complete Direct Debit setup for fees (£50)",
       JValue.js "3. Pass Identity Verification for all directors",
       JValue.js "4. Submit to production environment after testing"])]

/-- An incoming HTTP request, as the worker handler sees it: method, URL
path, parsed query parameters (first value per key, as
`parse_qs(...)[k][0]` reads them), the `Authorization` header with the
`headers.get(..., "")` default already applied, and the JSON body —
`Except.error ()` when `await request.json()` raises. -/
structure Request where
  method : String
  path : String
  qparams : List (String × String)
  authHeader : String
  jsonBody : Except Unit JObj

/-- An outgoing response: HTTP status and JSON body (the OPTIONS preflight
body is the empty string). -/
structure HResponse where
  status : Nat
  body : JValue

/-- Local helper `error_response` of `Default.fetch`. -/
def error_response (m : String) (status : Nat) : HResponse := ⟨status, errDict m⟩

/-- The byte draws behind each `secrets.token_hex` call a single request can
make, plus the index drawn by `random.choice` in the search handler. -/
structure Draws where
  searchDraw : Fin 3
  taskBytes : List (Fin 256)
  orderBytes : List (Fin 256)
  payBytes : List (Fin 256)
  addrBytes : List (Fin 256)
  qrBytes : List (Fin 256)
  authBytes : List (Fin 256)
  incBytes : List (Fin 256)
  txnBytes : List (Fin 256)

/-- The list `random.choice` draws from in the search handler. -/
def searchChoices : List Bool := [true, true, false]

/-- Helper `Default._get_flag`.  The repository file stores the flag emoji
bytes double-encoded; the intended emoji are used here. -/
def get_flag (code : String) : String :=
  lookupD [("uk", "🇬🇧"), ("sg", "🇸🇬"), ("hk", "🇭🇰"), ("ae", "🇦🇪"), ("us", "🇺🇸")]
    code "🏳️"

/-- Helper `Default._get_price_includes`. -/
def get_price_includes (code : String) : List String :=
  lookupD
    [("uk", ["Companies House fee", "Registration"]),
     ("sg", ["ACRA filing", "Name approval"]),
     ("hk", ["Companies Registry fee", "Name search"]),
     ("ae", ["Free zone license", "Establishment card"]),
     ("us", ["State filing fee", "Registered agent"])]
    code ["Filing fee"]

/-- Helper `Default._get_processing_time`. -/
def get_processing_time (country : String) : String :=
  lookupD
    [("uk", "3-5 business days"), ("sg", "1-2 business days"),
     ("hk", "3-5 business days"), ("ae", "5-7 business days"),
     ("us", "2-5 business days")]
    country "5-7 business days"

/-- Helper `Default._get_next_steps` (the country argument is unused in the
source as well). -/
def get_next_steps (country provider_type : String) : List String :=
  if provider_type = "manual" then
    ["Our team will contact you within 24 hours", "Submit required documents",
     "Review and sign application", "Payment processing", "Company incorporation"]
  else
    ["Complete payment to proceed", "Upload identity verification documents",
     "Provider submits to relevant authority", "Track status via order ID"]

/-- Helper `Default._get_registration_fields`. -/
def get_registration_fields (country : String) : List String :=
  lookupD
    [("uk", ["company_name", "company_type", "directors", "shareholders",
             "registered_office_address", "sic_code"]),
     ("sg", ["company_name", "company_type", "shareholders", "directors",
             "registered_address", "business_activities"]),
     ("hk", ["company_name", "company_type", "shareholders", "directors",
             "registered_address", "hkid_verification"]),
     ("ae", ["company_name", "company_type", "freezone", "shareholders",
             "directors", "visa_sponsorship"]),
     ("us", ["company_name", "company_type", "state", "shareholders",
             "registered_agent", "ein"])]
    country []

/-- The request body as the agent endpoints read it: parse failures are
swallowed and replaced by the empty dictionary. -/
def bodyOrEmpty (r : Except Unit JObj) : JObj :=
  match r with
  | Except.ok b => b
  | Except.error _ => []

/-- Response of an agent task endpoint: build the task, run it through the
team, and wrap the returned dictionary. -/
def agentTaskResponse (role : AgentRole) (description : String) (metadata : JObj)
    (env : Env) (rand : Draws) : HResponse :=
  let task : AgentTask :=
    ⟨"TASK-" ++ token_hex rand.taskBytes, role, description, "pending",
     env.nowIso, none, none, metadata⟩
  ⟨200, JValue.jo [("result", team_process_value role env task)]⟩

/-- Model of `Default.fetch` of `src/main.py`: the worker router.  The
return value is `Except.error msg` when an uncaught Python exception would
escape the handler, and `Except.ok response` otherwise.  `team` is the
current state of the global `agent_team` roster (used by the roster-status
endpoint; the task endpoints' responses do not depend on it). -/
def fetch (req : Request) (env : Env) (rand : Draws) (team : List Agent) :
    Except String HResponse :=
  let params := req.qparams
  if req.method = "OPTIONS" then
    Except.ok ⟨204, JValue.js ""⟩
  else if req.path = "/" then
    Except.ok ⟨200, JValue.jo
      [("name", JValue.js "OpenCompanyBot API"),
       ("version", JValue.js "2.0.0"),
       ("status", JValue.js "operational"),
       ("countries", JValue.ja (provider_keys.map JValue.js))]⟩
  else if req.path = "/health" then
    Except.ok ⟨200, JValue.jo
      [("status", JValue.js "healthy"),
       ("timestamp", JValue.js env.nowIso),
       ("providers", JValue.ja (provider_keys.map JValue.js))]⟩
  else if req.path = "/api/v1/providers" ∧ req.method = "GET" then
    Except.ok ⟨200, JValue.jo
      [("providers", JValue.ja (PROVIDERS.map (fun p =>
          JValue.jo
            [("code", JValue.js p.1),
             ("name", lookupD (asObj p.2) "name" JValue.null),
             ("type", lookupD (asObj p.2) "type" JValue.null),
             ("features", lookupD (asObj p.2) "features" JValue.null),
             ("virtual_address", lookupD (asObj p.2) "virtual_address" (JValue.jb false))])))]⟩
  else if req.path = "/api/v1/countries" ∧ req.method = "GET" then
    Except.ok ⟨200, JValue.jo
      [("countries", JValue.ja (PROVIDERS.map (fun p =>
          let reqs := getObj COUNTRY_REQUIREMENTS p.1 []
          JValue.jo
            [("code", JValue.js p.1),
             ("name", JValue.js (pyUpper p.1)),
             ("flag", JValue.js (get_flag p.1)),
             ("available", JValue.jb true),
             ("type", lookupD (asObj p.2) "type" JValue.null),
             ("features", lookupD (asObj p.2) "features" JValue.null),
             ("requirements", lookupD reqs "fields" (JValue.ja [])),
             ("pricing", JValue.jo
                [("base", lookupD reqs "companies_house_fee"
                     (lookupD reqs "acra_fee" (JValue.ji 100))),
                 ("currency", JValue.js (if p.1 ≠ "uk" then "USD" else "GBP")),
                 ("includes", JValue.ja ((get_price_includes p.1).map JValue.js))])])))]⟩
  else if strLeads "/api/v1/countries/" req.path ∧ req.method = "GET" then
    let country_code := (req.path.splitOn "/").getLastD ""
    if ¬ (inKeys PROVIDERS country_code) then
      Except.ok (error_response "Country not found" 404)
    else
      Except.ok ⟨200, JValue.jo
        [("code", JValue.js country_code),
         ("provider", lookupD PROVIDERS country_code JValue.null),
         ("requirements", lookupD COUNTRY_REQUIREMENTS country_code (JValue.jo [])),
         ("registration_fields", JValue.ja
            ((get_registration_fields country_code).map JValue.js))]⟩
  else if req.path = "/api/v1/mcp/tools" ∧ req.method = "GET" then
    Except.ok ⟨200, JValue.jo
      [("tools", JValue.ja
          [JValue.jo [("name", JValue.js "register_company"),
             ("description", JValue.js "Register a company in any supported country")],
           JValue.jo [("name", JValue.js "check_company_status"),
             ("description", JValue.js "Check incorporation status")],
           JValue.jo [("name", JValue.js "search_company_name"),
             ("description", JValue.js "Check name availability")],
           JValue.jo [("name", JValue.js "get_requirements"),
             ("description", JValue.js "Get registration requirements for a country")],
           JValue.jo [("name", JValue.js "calculate_price"),
             ("description", JValue.js "Calculate total registration cost")]])]⟩
  else if req.path = "/api/v1/agents" ∧ req.method = "GET" then
    Except.ok ⟨200, JValue.jo
      [("team", get_team_status team), ("summary", get_team_summary team)]⟩
  else if req.path = "/api/v1/agents/ceo" ∧ req.method = "POST" then
    Except.ok (agentTaskResponse AgentRole.ceo "analyze_performance" [] env rand)
  else if req.path = "/api/v1/agents/sales" ∧ req.method = "POST" then
    let body := bodyOrEmpty req.jsonBody
    let action := getStr body "action" "handle_inquiry"
    let description := if action = "qualify" then action ++ "_lead" else "handle_inquiry"
    Except.ok (agentTaskResponse AgentRole.sales description body env rand)
  else if req.path = "/api/v1/agents/support" ∧ req.method = "POST" then
    let body := bodyOrEmpty req.jsonBody
    Except.ok (agentTaskResponse AgentRole.support (getStr body "type" "faq") body env rand)
  else if req.path = "/api/v1/agents/register" ∧ req.method = "POST" then
    let body := bodyOrEmpty req.jsonBody
    Except.ok (agentTaskResponse AgentRole.registration "register_company" body env rand)
  else if req.path = "/api/v1/agents/kyc" ∧ req.method = "POST" then
    let body := bodyOrEmpty req.jsonBody
    Except.ok (agentTaskResponse AgentRole.compliance "verify_kyc" body env rand)
  else if req.path = "/api/v1/agents/payment" ∧ req.method = "POST" then
    let body := bodyOrEmpty req.jsonBody
    Except.ok (agentTaskResponse AgentRole.payment
      (getStr body "action" "process_payment") body env rand)
  else if req.path = "/api/v1/auth/register" ∧ req.method = "POST" then
    match req.jsonBody with
    | Except.error _ => Except.ok (error_response "Invalid JSON" 400)
    | Except.ok body =>
      let email := pyStrip (pyLower (getStr body "email" ""))
      let password := getStr body "password" ""
      let name := pyStrip (getStr body "name" "")
      if email = "" ∨ password = "" then
        Except.ok (error_response "Email and password are required" 400)
      else if password.length < 6 then
        Except.ok (error_response "Password must be at least 6 characters" 400)
      else
        Except.ok ⟨200, JValue.jo
          [("status", JValue.js "ok"),
           ("token", JValue.js (token_hex rand.authBytes)),
           ("user", JValue.jo
              [("email", JValue.js email),
               ("name", JValue.js
                  (strOrDefault name ((email.splitOn "@").headD "")))])]⟩
  else if req.path = "/api/v1/auth/login" ∧ req.method = "POST" then
    match req.jsonBody with
    | Except.error _ => Except.ok (error_response "Invalid JSON" 400)
    | Except.ok body =>
      let email := pyStrip (pyLower (getStr body "email" ""))
      let password := getStr body "password" ""
      if email = "" ∨ password = "" then
        Except.ok (error_response "Email and password are required" 400)
      else
        Except.ok ⟨200, JValue.jo
          [("status", JValue.js "ok"),
           ("token", JValue.js (token_hex rand.authBytes)),
           ("user", JValue.jo [("email", JValue.js email)])]⟩
  else if req.path = "/api/v1/auth/profile" ∧ req.method = "GET" then
    if ¬ (strLeads "Bearer " req.authHeader) then
      Except.ok (error_response "Unauthorized" 401)
    else
      Except.ok ⟨200, JValue.jo
        [("user", JValue.jo [("email", JValue.js "user@example.com")])]⟩
  else if req.path = "/api/v1/orders" ∧ req.method = "POST" then
    if ¬ (strHasSeg "Bearer" req.authHeader) then
      Except.ok (error_response "Please login first" 401)
    else
      match req.jsonBody with
      | Except.error _ => Except.ok (error_response "Invalid JSON" 400)
      | Except.ok body =>
        let country := getStr body "country" "uk"
        let company_name := pyStrip (getStr body "company_name" "")
        let company_type := getStr body "company_type" "ltd"
        let virtual := getBool body "use_virtual_address" false
        if ¬ (inKeys PROVIDERS country) then
          Except.ok (error_response "Unsupported country" 400)
        else if company_name = "" then
          Except.ok (error_response "Company name is required" 400)
        else
          let total := calculate_price country company_type virtual
          let order_id := "ORD-" ++ pyUpper (token_hex rand.orderBytes)
          Except.ok ⟨200, JValue.jo
            [("status", JValue.js "ok"),
             ("order", JValue.jo
                [("id", JValue.js order_id),
                 ("company_name", JValue.js company_name),
                 ("country", JValue.js country),
                 ("provider", JValue.js (providerName country)),
                 ("company_type", JValue.js company_type),
                 ("virtual_address", JValue.jb virtual),
                 ("amount", JValue.ji total.total),
                 ("currency", JValue.js total.currency),
                 ("breakdown", JValue.jo
                    [("base", JValue.ji total.base),
                     ("government_fee", JValue.ji total.government_fee),
                     ("virtual_address", JValue.ji total.virtual_address)]),
                 ("status", JValue.js "pending_payment"),
                 ("created_at", JValue.js env.nowIso)])]⟩
  else if req.path = "/api/v1/orders" ∧ req.method = "GET" then
    if ¬ (strHasSeg "Bearer" req.authHeader) then
      Except.ok (error_response "Unauthorized" 401)
    else
      Except.ok ⟨200, JValue.jo
        [("orders", JValue.ja
            [JValue.jo
               [("id", JValue.js "ORD-DEMO001"),
                ("company_name", JValue.js "Tech Solutions Pte Ltd"),
                ("country", JValue.js "sg"),
                ("provider", JValue.js (providerName "sg")),
                ("status", JValue.js "completed"),
                ("amount", JValue.ji 350),
                ("currency", JValue.js "USD"),
                ("created_at", JValue.js "2026-02-15T10:00:00Z")],
             JValue.jo
               [("id", JValue.js "ORD-DEMO002"),
                ("company_name", JValue.js "Dubai Trading LLC"),
                ("country", JValue.js "ae"),
                ("provider", JValue.js (providerName "ae")),
                ("status", JValue.js "processing"),
                ("amount", JValue.ji 580),
                ("currency", JValue.js "USD"),
                ("created_at", JValue.js "2026-02-20T14:30:00Z")]])]⟩
  else if strLeads "/api/v1/orders/" req.path ∧ req.method = "GET" then
    let order_id := (req.path.splitOn "/").getLastD ""
    Except.ok ⟨200, JValue.jo
      [("order", JValue.jo
          [("id", JValue.js order_id),
           ("status", JValue.js "processing"),
           ("company_name", JValue.js "Demo Company Ltd"),
           ("country", JValue.js "uk"),
           ("steps", JValue.ja
              [JValue.jo [("step", JValue.js "payment"), ("status", JValue.js "completed")],
               JValue.jo [("step", JValue.js "verification"), ("status", JValue.js "completed")],
               JValue.jo [("step", JValue.js "filing"), ("status", JValue.js "in_progress")],
               JValue.jo [("step", JValue.js "certificate"), ("status", JValue.js "pending")]])])]⟩
  else if req.path = "/api/v1/companies/incorporate" ∧ req.method = "POST" then
    if ¬ (strHasSeg "Bearer" req.authHeader) then
      Except.ok (error_response "Please login first" 401)
    else
      match req.jsonBody with
      | Except.error _ => Except.ok (error_response "Invalid JSON" 400)
      | Except.ok body =>
        let country := pyLower (getStr body "country" "uk")
        let company_name := pyStrip (getStr body "company_name" "")
        let company_type := getStr body "company_type" "ltd"
        if ¬ (inKeys PROVIDERS country) then
          Except.ok (error_response
            ("Unsupported country. Choose from: " ++
              String.intercalate ", " provider_keys) 400)
        else if company_name = "" then
          Except.ok (error_response "Company name is required" 400)
        else if country = "uk" then
          let incorporation_id := "INC-UK-" ++ pyUpper (token_hex rand.incBytes)
          match (pyWords (getStr body "director_name" "John")).head? with
          | none => Except.error "list index out of range"
          | some forename =>
            let surname := strOrDefault
              (String.intercalate " "
                ((pyWords (getStr body "director_name" "John Smith")).tail)) "Smith"
            let roa : JObj :=
              match lookupD body "registered_office_address" JValue.null with
              | JValue.jo f => f
              | _ =>
                [("address_line_1", JValue.js (getStr body "address_line_1" "123 Main Street")),
                 ("locality", JValue.js (getStr body "locality" "London")),
                 ("postal_code", JValue.js (getStr body "postal_code" "SW1A 1AA"))]
            let company_data : JObj :=
              [("company_name", JValue.js company_name),
               ("company_type", JValue.js company_type),
               ("registered_office_address", JValue.jo roa),
               ("directors", JValue.ja
                  [JValue.jo [("forename", JValue.js forename),
                              ("surname", JValue.js surname)]]),
               ("sic_codes", JValue.ja [JValue.js (getStr body "sic_code" "62012")])]
            let result := incorporate_company_result "DEMO_PRESENTER" "DEMO_AUTH" env
              rand.txnBytes company_data
            Except.ok ⟨200, JValue.jo
              [("status", JValue.js "success"),
               ("message", JValue.js "UK Company incorporation submitted via XML Gateway"),
               ("incorporation_id", lookupD result "transaction_id" (JValue.js incorporation_id)),
               ("country", JValue.js country),
               ("provider", JValue.js "Companies House XML Gateway"),
               ("provider_type", JValue.js "xml_gateway"),
               ("company_name", JValue.js company_name),
               ("company_type", JValue.js company_type),
               ("company_number", lookupD result "company_number" (JValue.js "PENDING")),
               ("xml_generated", JValue.jb true),
               ("estimated_processing_time", JValue.js "3-5 business days"),
               ("test_mode", lookupD result "test_mode" (JValue.jb true)),
               ("next_steps", lookupD result "next_steps" (JValue.ja
                  [JValue.js "Complete payment",
                   JValue.js "Verify director identity",
                   JValue.js "Companies House reviews application",
                   JValue.js "Receive certificate"]))]⟩
        else
          let incorporation_id :=
            "INC-" ++ pyUpper country ++ "-" ++ pyUpper (token_hex rand.incBytes)
          Except.ok ⟨200, JValue.jo
            [("status", JValue.js "success"),
             ("message", JValue.js
                ("Company incorporation submitted to " ++ providerName country)),
             ("incorporation_id", JValue.js incorporation_id),
             ("country", JValue.js country),
             ("provider", JValue.js (providerName country)),
             ("provider_type", JValue.js (providerType country)),
             ("company_name", JValue.js company_name),
             ("company_type", JValue.js company_type),
             ("company_number", JValue.js "PENDING"),
             ("estimated_processing_time", JValue.js (get_processing_time country)),
             ("next_steps", JValue.ja
                ((get_next_steps country (providerType country)).map JValue.js))]⟩
  else if req.path = "/api/v1/companies/search" ∧ req.method = "GET" then
    let company_name := lookupD params "q" ""
    let country := lookupD params "country" "uk"
    if company_name = "" then
      Except.ok (error_response "Company name is required" 400)
    else if ¬ (inKeys PROVIDERS country) then
      Except.ok (error_response "Unsupported country" 400)
    else
      let available := searchChoices.getD rand.searchDraw.val true
      Except.ok ⟨200, JValue.jo
        [("company_name", JValue.js company_name),
         ("country", JValue.js country),
         ("available", JValue.jb available),
         ("suggestions", JValue.ja
            (if available then []
             else [JValue.js "Tech Solutions Ltd", JValue.js "Digital Ventures Ltd"]))]⟩
  else if req.path = "/api/v1/pricing/calculate" ∧ req.method = "POST" then
    match req.jsonBody with
    | Except.error _ => Except.ok (error_response "Invalid JSON" 400)
    | Except.ok body =>
      let country := getStr body "country" "uk"
      let company_type := getStr body "company_type" "ltd"
      let virtual := getBool body "virtual_address" false
      if ¬ (inKeys PROVIDERS country) then
        Except.ok (error_response "Unsupported country" 400)
      else
        let pricing := calculate_price country company_type virtual
        Except.ok ⟨200, JValue.jo
          [("country", JValue.js country),
           ("company_type", JValue.js company_type),
           ("virtual_address", JValue.jb virtual),
           ("total", JValue.ji pricing.total),
           ("currency", JValue.js pricing.currency),
           ("breakdown", JValue.jo
              [("base", JValue.ji pricing.base),
               ("government_fee", JValue.ji pricing.government_fee),
               ("virtual_address", JValue.ji pricing.virtual_address)])]⟩
  else if req.path = "/api/v1/payments/create" ∧ req.method = "POST" then
    if ¬ (strHasSeg "Bearer" req.authHeader) then
      Except.ok (error_response "Please login first" 401)
    else
      match req.jsonBody with
      | Except.error _ => Except.ok (error_response "Invalid JSON" 400)
      | Except.ok body =>
        let order_id := getStr body "order_id" ""
        let amount := getNumJ body "amount" (JValue.ji 0)
        let currency := getStr body "currency" "USDT"
        if order_id = "" ∨ numToRat amount ≤ 0 then
          Except.ok (error_response "Order ID and amount are required" 400)
        else
          let payment_id := "PAY-" ++ pyUpper (token_hex rand.payBytes)
          Except.ok ⟨200, JValue.jo
            [("status", JValue.js "ok"),
             ("payment", JValue.jo
                [("id", JValue.js payment_id),
                 ("order_id", JValue.js order_id),
                 ("amount", amount),
                 ("currency", JValue.js currency),
                 ("network", JValue.js (if currency = "USDT" then "TRC20" else "ERC20")),
                 ("address", JValue.js
                    ("TX" ++ pyTake 30 (token_hex rand.addrBytes) ++ "...")),
                 ("qr_data", JValue.js ("tron:" ++ token_hex rand.qrBytes)),
                 ("status", JValue.js "pending"),
                 ("expires_in", JValue.ji 3600),
                 ("expires_at", JValue.js env.nowIso)])]⟩
  else if req.path = "/api/v1/payments/webhook" ∧ req.method = "POST" then
    match req.jsonBody with
    | Except.error _ => Except.ok (error_response "Invalid JSON" 400)
    | Except.ok _ =>
      Except.ok ⟨200, JValue.jo
        [("status", JValue.js "ok"), ("message", JValue.js "Webhook received")]⟩
  else if req.path = "/api/v1/payments" ∧ req.method = "GET" then
    Except.ok ⟨200, JValue.jo
      [("supported_coins", JValue.ja
          [JValue.js "USDT", JValue.js "BTC", JValue.js "ETH", JValue.js "USDC"]),
       ("networks", JValue.jo
          [("USDT", JValue.ja [JValue.js "TRC20", JValue.js "ERC20"]),
           ("BTC", JValue.ja [JValue.js "Bitcoin"]),
           ("ETH", JValue.ja [JValue.js "Ethereum"]),
           ("USDC", JValue.ja [JValue.js "ERC20"])])]⟩
  else if req.path = "/api/v1/requirements" ∧ req.method = "GET" then
    let country := lookupD params "country" "uk"
    if ¬ (inKeys COUNTRY_REQUIREMENTS country) then
      Except.ok (error_response "Unsupported country" 400)
    else
      Except.ok ⟨200, JValue.jo
        [("country", JValue.js country),
         ("requirements", lookupD COUNTRY_REQUIREMENTS country JValue.null),
         ("provider", lookupD PROVIDERS country JValue.null)]⟩
  else
    Except.ok (error_response "Not found" 404)

/-- Hex digits of values below 16 are distinct. -/
theorem hexDig_inj (i j : Nat) (hi : i < 16) (hj : j < 16) (h : hexDig i = hexDig j) :
    i = j := by
  interval_cases i <;> interval_cases j <;> first | rfl | exact absurd h (by decide)

/-- Hex digits of values below 16 lie in the hex alphabet. -/
theorem hexDig_mem (n : Nat) (h : n < 16) : hexDig n ∈ hexDigitChars := by
  interval_cases n <;> decide

/-- A byte is determined by the hex digits of its high and low nibbles. -/
theorem hexPair_inj (a b : Fin 256)
    (h1 : hexDig (a.val / 16) = hexDig (b.val / 16))
    (h2 : hexDig (a.val % 16) = hexDig (b.val % 16)) : a = b := by
  have ha := a.isLt
  have hb := b.isLt
  have ha16 : a.val / 16 < 16 := Nat.div_lt_of_lt_mul (by omega)
  have hb16 : b.val / 16 < 16 := Nat.div_lt_of_lt_mul (by omega)
  have hd : a.val / 16 = b.val / 16 := hexDig_inj _ _ ha16 hb16 h1
  have hm : a.val % 16 = b.val % 16 :=
    hexDig_inj _ _ (Nat.mod_lt _ (by omega)) (Nat.mod_lt _ (by omega)) h2
  have hde : 16 * (a.val / 16) + a.val % 16 = 16 * (b.val / 16) + b.val % 16 := by omega
  exact Fin.ext (by omega)

/-- Unfolding of the hex rendering of a byte list, one byte at a time. -/
theorem flatMap_byteHex_cons (a : Fin 256) (as : List (Fin 256)) :
    (a :: as).flatMap byteHex =
      hexDig (a.val / 16) :: hexDig (a.val % 16) :: as.flatMap byteHex := by
  simp [List.flatMap_cons, byteHex]

/-- The hex rendering of a byte list determines the byte list. -/
theorem flatMap_byteHex_inj (l1 l2 : List (Fin 256))
    (h : l1.flatMap byteHex = l2.flatMap byteHex) : l1 = l2 := by
  induction l1 generalizing l2 with
  | nil =>
      cases l2 with
      | nil => rfl
      | cons b bs => rw [flatMap_byteHex_cons] at h; cases h
  | cons a as ih =>
      cases l2 with
      | nil => rw [flatMap_byteHex_cons] at h; cases h
      | cons b bs =>
          rw [flatMap_byteHex_cons, flatMap_byteHex_cons] at h
          injection h with h1 h'
          injection h' with h2 h3
          rw [hexPair_inj a b h1 h2, ih bs h3]

/-- Every character of the hex rendering lies in the lowercase hex
alphabet. -/
theorem flatMap_byteHex_mem (l : List (Fin 256)) :
    ∀ c ∈ l.flatMap byteHex, c ∈ hexDigitChars := by
  induction l with
  | nil => intro c hc; cases hc
  | cons a as ih =>
      intro c hc
      rw [flatMap_byteHex_cons, List.mem_cons, List.mem_cons] at hc
      have ha := a.isLt
      rcases hc with h | h | h
      any_goals subst h
      · exact hexDig_mem _ (Nat.div_lt_of_lt_mul (by omega))
      · exact hexDig_mem _ (Nat.mod_lt _ (by omega))
      · exact ih c h

/-- Uppercasing is injective on the hex alphabet. -/
theorem toUpper_hex_inj :
    ∀ c1 ∈ hexDigitChars, ∀ c2 ∈ hexDigitChars, c1.toUpper = c2.toUpper → c1 = c2 := by
  decide

/-- Uppercasing is injective on character lists drawn from the hex
alphabet. -/
theorem map_toUpper_hex_inj (l1 l2 : List Char)
    (m1 : ∀ c ∈ l1, c ∈ hexDigitChars) (m2 : ∀ c ∈ l2, c ∈ hexDigitChars)
    (h : l1.map Char.toUpper = l2.map Char.toUpper) : l1 = l2 := by
  induction l1 generalizing l2 with
  | nil => cases l2 with
    | nil => rfl
    | cons b bs => cases h
  | cons a as ih =>
      cases l2 with
      | nil => cases h
      | cons b bs =>
          injection h with h1 h2
          have ha : a ∈ hexDigitChars := m1 a (List.mem_cons_self a as)
          have hb : b ∈ hexDigitChars := m2 b (List.mem_cons_self b bs)
          rw [toUpper_hex_inj a ha b hb h1,
              ih bs (fun c hc => m1 c (List.mem_cons_of_mem a hc))
                (fun c hc => m2 c (List.mem_cons_of_mem b hc)) h2]

/-- Distinct byte draws give distinct uppercased hex tokens. -/
theorem pyUpper_token_hex_inj (l1 l2 : List (Fin 256))
    (h : pyUpper (token_hex l1) = pyUpper (token_hex l2)) : l1 = l2 := by
  simp only [pyUpper, token_hex] at h
  exact flatMap_byteHex_inj l1 l2
    (map_toUpper_hex_inj _ _ (flatMap_byteHex_mem l1) (flatMap_byteHex_mem l2)
      (congrArg String.data h))

/-- Appending an abstract string to a literal is cancellative on the left. -/
theorem string_append_left_cancel (p s1 s2 : String)
    (h : p ++ s1 = p ++ s2) : s1 = s2 := by
  cases p with
  | mk dp =>
    cases s1 with
    | mk d1 =>
      cases s2 with
      | mk d2 =>
        have : dp ++ d1 = dp ++ d2 := by
          have := congrArg String.data h
          simpa [String.data] using this
        exact congrArg String.mk (List.append_cancel_left this)

/-- Appending a literal to an abstract string is cancellative on the
right. -/
theorem string_append_right_cancel (t s1 s2 : String)
    (h : s1 ++ t = s2 ++ t) : s1 = s2 := by
  cases t with
  | mk dt =>
    cases s1 with
    | mk d1 =>
      cases s2 with
      | mk d2 =>
        have : d1 ++ dt = d2 ++ dt := by
          have := congrArg String.data h
          simpa [String.data] using this
        exact congrArg String.mk (List.append_cancel_right this)

/-- Taking an even number of hex characters is taking whole bytes. -/
theorem take_flatMap_byteHex (k : Nat) (l : List (Fin 256)) :
    (l.flatMap byteHex).take (2 * k) = (l.take k).flatMap byteHex := by
  induction l generalizing k with
  | nil => simp
  | cons a as ih =>
      cases k with
      | zero => simp
      | succ j =>
          have e : 2 * (j + 1) = 2 * j + 1 + 1 := by ring
          rw [flatMap_byteHex_cons, e, List.take_succ_cons, List.take_succ_cons,
            List.take_succ_cons, flatMap_byteHex_cons, ih j]

/-- HTTP status of a handler outcome (`none` when an exception escaped). -/
def httpStatusOf (r : Except String HResponse) : Option Nat :=
  match r with
  | Except.ok h => some h.status
  | Except.error _ => none

/-- Response body of a handler outcome. -/
def respBody (r : Except String HResponse) : JValue :=
  match r with
  | Except.ok h => h.body
  | Except.error _ => JValue.null

/-- Nested field access on a response body. -/
def jFieldIn (v : JValue) (k1 k2 : String) : Option JValue :=
  match jField v k1 with
  | some w => jField w k2
  | none => none

/-- A fixed environment instance used to evaluate concrete requests. -/
def defaultEnv : Env :=
  ⟨"2026-01-01T00:00:00", "2026-01-01 00:00:00", "0101", "20260101",
   "20260101000000", fun _ => 0, fun _ => "d41d8cd98f00b204e9800998ecf8427e"⟩

/-- A fixed draw instance (empty token draws, first search choice). -/
def defaultDraws : Draws := ⟨0, [], [], [], [], [], [], [], []⟩

/-- C3 counterexample: an OPTIONS request to `/health` is answered by the
CORS-preflight clause, which runs before the `/health` clause: the response
is 204 with an empty body, not 200 with a healthy status. -/
theorem health_options_cex :
    fetch ⟨"OPTIONS", "/health", [], "", Except.ok []⟩ defaultEnv defaultDraws
        initialTeam = Except.ok ⟨204, JValue.js ""⟩ ∧ (204 : Nat) ≠ 200 :=
  ⟨rfl, by decide⟩

/-- C3 amended: for every request whose path is `/health` and whose method is
not OPTIONS, regardless of query, authorization and body, the response is
HTTP 200 with a body whose `status` field is `healthy`. -/
theorem health_spec (m : String) (qp : List (String × String)) (auth : String)
    (bodyE : Except Unit JObj) (env : Env) (rand : Draws) (team : List Agent)
    (hm : m ≠ "OPTIONS") :
    fetch ⟨m, "/health", qp, auth, bodyE⟩ env rand team =
      Except.ok ⟨200, JValue.jo
        [("status", JValue.js "healthy"),
         ("timestamp", JValue.js env.nowIso),
         ("providers", JValue.ja (provider_keys.map JValue.js))]⟩ := by
  unfold fetch
  simp [hm]

/-- Witness for C3 amended at a concrete GET request. -/
theorem health_spec_witness :
    ("GET" ≠ "OPTIONS") ∧
    fetch ⟨"GET", "/health", [], "", Except.ok []⟩ defaultEnv defaultDraws
        initialTeam =
      Except.ok ⟨200, JValue.jo
        [("status", JValue.js "healthy"),
         ("timestamp", JValue.js defaultEnv.nowIso),
         ("providers", JValue.ja (provider_keys.map JValue.js))]⟩ :=
  ⟨by decide, health_spec "GET" [] "" (Except.ok []) defaultEnv defaultDraws
      initialTeam (by decide)⟩

/-- C4 counterexample: a POST to the incorporation endpoint whose body has an
empty `company_name` but whose `Authorization` header lacks `Bearer` is
rejected by the authorization gate first: 401 `Please login first`, not the
claimed 400. -/
theorem incorporate_missing_name_cex :
    fetch ⟨"POST", "/api/v1/companies/incorporate", [], "",
        Except.ok [("company_name", JValue.js "")]⟩ defaultEnv defaultDraws
        initialTeam = Except.ok ⟨401, errDict "Please login first"⟩ ∧
    (401 : Nat) ≠ 400 :=
  ⟨rfl, by decide⟩

/-- C4 amended: every authorized (`Bearer` in the header) POST to
`/api/v1/companies/incorporate` whose valid JSON body names a supported
country (after lowercasing, default `uk`) and whose `company_name` is
missing, empty or whitespace-only yields HTTP 400 with body
`{"error": "Company name is required"}`. -/
theorem incorporate_missing_name_spec (env : Env) (rand : Draws)
    (team : List Agent) (qp : List (String × String)) (auth : String)
    (body : JObj)
    (hA : strHasSeg "Bearer" auth = true)
    (hC : inKeys PROVIDERS (pyLower (getStr body "country" "uk")) = true)
    (hN : pyStrip (getStr body "company_name" "") = "") :
    fetch ⟨"POST", "/api/v1/companies/incorporate", qp, auth, Except.ok body⟩
        env rand team =
      Except.ok ⟨400, errDict "Company name is required"⟩ := by
  unfold fetch
  simp [hA, hC, hN, error_response]

/-- Witness for C4 amended at a concrete whitespace-only company name. -/
theorem incorporate_missing_name_spec_witness :
    (strHasSeg "Bearer" "Bearer tok" = true) ∧
    (inKeys PROVIDERS
        (pyLower (getStr [("company_name", JValue.js "   ")] "country" "uk")) = true) ∧
    (pyStrip (getStr [("company_name", JValue.js "   ")] "company_name" "") = "") ∧
    fetch ⟨"POST", "/api/v1/companies/incorporate", [], "Bearer tok",
        Except.ok [("company_name", JValue.js "   ")]⟩ defaultEnv defaultDraws
        initialTeam =
      Except.ok ⟨400, errDict "Company name is required"⟩ :=
  ⟨by decide, by decide, by decide,
   incorporate_missing_name_spec defaultEnv defaultDraws initialTeam []
     "Bearer tok" [("company_name", JValue.js "   ")] (by decide) (by decide)
     (by decide)⟩

/-- C2 counterexample: an authorized incorporation POST with a supported
(default `uk`) country and non-empty `company_name`, but a whitespace-only
`director_name`, makes `body.get("director_name", "John").split()[0]` raise
an `IndexError`: no success response is produced, refuting the claim's
universal guarantee. -/
theorem incorporate_submit_cex :
    strHasSeg "Bearer" "Bearer tok" = true ∧
    inKeys PROVIDERS (pyLower (getStr
        [("company_name", JValue.js "Acme Ltd"), ("director_name", JValue.js " ")]
        "country" "uk")) = true ∧
    pyStrip (getStr
        [("company_name", JValue.js "Acme Ltd"), ("director_name", JValue.js " ")]
        "company_name" "") ≠ "" ∧
    fetch ⟨"POST", "/api/v1/companies/incorporate", [], "Bearer tok",
        Except.ok [("company_name", JValue.js "Acme Ltd"),
                   ("director_name", JValue.js " ")]⟩
        defaultEnv defaultDraws initialTeam =
      Except.error "list index out of range" :=
  ⟨by decide, by decide, by decide, rfl⟩

/-- C2 amended: for every authorized POST to the incorporation endpoint with
a supported country and non-empty `company_name` — and, on the UK path, a
`director_name` that is absent or has at least one word (otherwise the
handler raises) — the UK path builds the GovTalk XML locally through the
test-mode gateway (which performs no transmission) and responds with JSON
`status` `success`, `company_number` `PENDING` and `test_mode` true, while
every other supported country gets `status` `success`, `message`
`Company incorporation submitted to ` followed by the provider's name,
`provider` equal to `PROVIDERS[country]["name"]`, and `company_number`
`PENDING`. -/
theorem incorporate_submit_spec (env : Env) (rand : Draws) (team : List Agent)
    (qp : List (String × String)) (auth : String) (body : JObj)
    (hA : strHasSeg "Bearer" auth = true)
    (hC : inKeys PROVIDERS (pyLower (getStr body "country" "uk")) = true)
    (hN : pyStrip (getStr body "company_name" "") ≠ "") :
    (pyLower (getStr body "country" "uk") = "uk" →
      pyWords (getStr body "director_name" "John") ≠ [] →
      httpStatusOf (fetch ⟨"POST", "/api/v1/companies/incorporate", qp, auth,
          Except.ok body⟩ env rand team) = some 200 ∧
      jField (respBody (fetch ⟨"POST", "/api/v1/companies/incorporate", qp, auth,
          Except.ok body⟩ env rand team)) "status" = some (JValue.js "success") ∧
      jField (respBody (fetch ⟨"POST", "/api/v1/companies/incorporate", qp, auth,
          Except.ok body⟩ env rand team)) "company_number" =
        some (JValue.js "PENDING") ∧
      jField (respBody (fetch ⟨"POST", "/api/v1/companies/incorporate", qp, auth,
          Except.ok body⟩ env rand team)) "test_mode" = some (JValue.jb true) ∧
      jField (respBody (fetch ⟨"POST", "/api/v1/companies/incorporate", qp, auth,
          Except.ok body⟩ env rand team)) "provider" =
        some (JValue.js "Companies House XML Gateway") ∧
      jField (respBody (fetch ⟨"POST", "/api/v1/companies/incorporate", qp, auth,
          Except.ok body⟩ env rand team)) "xml_generated" = some (JValue.jb true)) ∧
    (pyLower (getStr body "country" "uk") ≠ "uk" →
      httpStatusOf (fetch ⟨"POST", "/api/v1/companies/incorporate", qp, auth,
          Except.ok body⟩ env rand team) = some 200 ∧
      jField (respBody (fetch ⟨"POST", "/api/v1/companies/incorporate", qp, auth,
          Except.ok body⟩ env rand team)) "status" = some (JValue.js "success") ∧
      jField (respBody (fetch ⟨"POST", "/api/v1/companies/incorporate", qp, auth,
          Except.ok body⟩ env rand team)) "message" = some (JValue.js
          ("Company incorporation submitted to " ++
            providerName (pyLower (getStr body "country" "uk")))) ∧
      jField (respBody (fetch ⟨"POST", "/api/v1/companies/incorporate", qp, auth,
          Except.ok body⟩ env rand team)) "provider" = some (JValue.js
          (providerName (pyLower (getStr body "country" "uk")))) ∧
      jField (respBody (fetch ⟨"POST", "/api/v1/companies/incorporate", qp, auth,
          Except.ok body⟩ env rand team)) "company_number" =
        some (JValue.js "PENDING")) := by
  constructor
  · intro hUk hD
    obtain ⟨w, ws, hw⟩ := List.exists_cons_of_ne_nil hD
    unfold fetch
    simp [hA, hC, hN, hUk, hw, httpStatusOf, respBody, jField,
      incorporate_company_result, lookupD,
      (by decide : inKeys PROVIDERS "uk" = true)]
  · intro hUk
    unfold fetch
    simp [hA, hC, hN, hUk, httpStatusOf, respBody, jField, lookupD]

/-- Witness for C2 amended: a UK request and a Singapore request, both
authorized with non-empty company names. -/
theorem incorporate_submit_spec_witness :
    (strHasSeg "Bearer" "Bearer tok" = true ∧
     inKeys PROVIDERS (pyLower (getStr [("company_name", JValue.js "Acme Ltd")]
        "country" "uk")) = true ∧
     pyStrip (getStr [("company_name", JValue.js "Acme Ltd")]
        "company_name" "") ≠ "" ∧
     pyLower (getStr [("company_name", JValue.js "Acme Ltd")] "country" "uk") = "uk" ∧
     pyWords (getStr [("company_name", JValue.js "Acme Ltd")]
        "director_name" "John") ≠ [] ∧
     httpStatusOf (fetch ⟨"POST", "/api/v1/companies/incorporate", [], "Bearer tok",
        Except.ok [("company_name", JValue.js "Acme Ltd")]⟩
        defaultEnv defaultDraws initialTeam) = some 200 ∧
     jField (respBody (fetch ⟨"POST", "/api/v1/companies/incorporate", [],
        "Bearer tok", Except.ok [("company_name", JValue.js "Acme Ltd")]⟩
        defaultEnv defaultDraws initialTeam)) "company_number" =
       some (JValue.js "PENDING") ∧
     jField (respBody (fetch ⟨"POST", "/api/v1/companies/incorporate", [],
        "Bearer tok", Except.ok [("company_name", JValue.js "Acme Ltd")]⟩
        defaultEnv defaultDraws initialTeam)) "test_mode" = some (JValue.jb true)) ∧
    (pyLower (getStr [("company_name", JValue.js "Biz"),
        ("country", JValue.js "sg")] "country" "uk") ≠ "uk" ∧
     httpStatusOf (fetch ⟨"POST", "/api/v1/companies/incorporate", [], "Bearer tok",
        Except.ok [("company_name", JValue.js "Biz"), ("country", JValue.js "sg")]⟩
        defaultEnv defaultDraws initialTeam) = some 200 ∧
     jField (respBody (fetch ⟨"POST", "/api/v1/companies/incorporate", [],
        "Bearer tok", Except.ok [("company_name", JValue.js "Biz"),
        ("country", JValue.js "sg")]⟩ defaultEnv defaultDraws initialTeam))
        "provider" = some (JValue.js (providerName (pyLower (getStr
          [("company_name", JValue.js "Biz"), ("country", JValue.js "sg")]
          "country" "uk"))))) := by
  have h1 := (incorporate_submit_spec defaultEnv defaultDraws initialTeam []
    "Bearer tok" [("company_name", JValue.js "Acme Ltd")] (by decide) (by decide)
    (by decide)).1 (by decide) (by decide)
  have h2 := (incorporate_submit_spec defaultEnv defaultDraws initialTeam []
    "Bearer tok" [("company_name", JValue.js "Biz"), ("country", JValue.js "sg")]
    (by decide) (by decide) (by decide)).2 (by decide)
  exact ⟨⟨by decide, by decide, by decide, by decide, by decide,
    h1.1, h1.2.2.1, h1.2.2.2.1⟩, ⟨by decide, h2.1, h2.2.2.2.1⟩⟩

/-- C5: for each of POST `/api/v1/orders`, `/api/v1/companies/incorporate`
and `/api/v1/payments/create`, the response is HTTP 401 (with the JSON error
body `Please login first`) if and only if the `Authorization` header does not
contain the substring `Bearer` (a missing header is the empty string and
contains nothing); any header containing `Bearer` anywhere passes the gate
with no further credential validation. -/
theorem auth_gate_spec (p : String)
    (hp : p ∈ ["/api/v1/orders", "/api/v1/companies/incorporate",
               "/api/v1/payments/create"])
    (qp : List (String × String)) (auth : String) (bodyE : Except Unit JObj)
    (env : Env) (rand : Draws) (team : List Agent) :
    (httpStatusOf (fetch ⟨"POST", p, qp, auth, bodyE⟩ env rand team) = some 401 ↔
      strHasSeg "Bearer" auth = false) ∧
    (strHasSeg "Bearer" auth = false →
      fetch ⟨"POST", p, qp, auth, bodyE⟩ env rand team =
        Except.ok ⟨401, errDict "Please login first"⟩) := by
  have main : ∀ q : String, q = "/api/v1/orders" ∨ q = "/api/v1/companies/incorporate" ∨
      q = "/api/v1/payments/create" →
      (strHasSeg "Bearer" auth = true →
        ¬ httpStatusOf (fetch ⟨"POST", q, qp, auth, bodyE⟩ env rand team) = some 401) ∧
      (strHasSeg "Bearer" auth = false →
        fetch ⟨"POST", q, qp, auth, bodyE⟩ env rand team =
          Except.ok ⟨401, errDict "Please login first"⟩) := by
    intro q hq
    constructor
    · intro hB hcontra
      revert hcontra
      rcases hq with hq | hq | hq <;> subst hq <;> unfold fetch <;>
        rcases bodyE with u | body <;>
          simp [hB, httpStatusOf, error_response] <;>
          split_ifs <;>
            first
            | simp [httpStatusOf, error_response]
            | (rcases hh : (pyWords (getStr body "director_name" "John")).head?
                 with _ | w <;>
               simp [hh, httpStatusOf, error_response])
    · intro hB
      rcases hq with hq | hq | hq <;> subst hq <;> unfold fetch <;>
        simp [hB, error_response]
  have hq : p = "/api/v1/orders" ∨ p = "/api/v1/companies/incorporate" ∨
      p = "/api/v1/payments/create" := by
    simpa [List.mem_cons] using hp
  cases hB : strHasSeg "Bearer" auth with
  | false =>
      exact ⟨by simp [hB, (main p hq).2 hB, httpStatusOf], fun _ => (main p hq).2 hB⟩
  | true =>
      refine ⟨?_, fun h => absurd h (by decide)⟩
      simp only [Bool.true_eq_false, iff_false]
      exact (main p hq).1 hB

/-- Witness for C5: the orders endpoint, an empty header (missing header) on
one side and a bearer header on the other. -/
theorem auth_gate_spec_witness :
    ("/api/v1/orders" ∈ ["/api/v1/orders", "/api/v1/companies/incorporate",
        "/api/v1/payments/create"]) ∧
    (httpStatusOf (fetch ⟨"POST", "/api/v1/orders", [], "", Except.ok []⟩
        defaultEnv defaultDraws initialTeam) = some 401 ↔
      strHasSeg "Bearer" "" = false) ∧
    (strHasSeg "Bearer" "" = false →
      fetch ⟨"POST", "/api/v1/orders", [], "", Except.ok []⟩
          defaultEnv defaultDraws initialTeam =
        Except.ok ⟨401, errDict "Please login first"⟩) :=
  ⟨by decide,
   (auth_gate_spec "/api/v1/orders" (by decide) [] "" (Except.ok []) defaultEnv
     defaultDraws initialTeam).1,
   (auth_gate_spec "/api/v1/orders" (by decide) [] "" (Except.ok []) defaultEnv
     defaultDraws initialTeam).2⟩

/-- C6: for a non-empty query and supported country, the search endpoint's
`available` field is drawn by `random.choice` from `[True, True, False]`:
the response is determined by the draw index, both `True` and `False` are
reachable for the same query (the handler is non-deterministic across runs),
and `suggestions` is the empty list exactly when `available` is `True`. -/
theorem search_random_spec (q country : String) (hq : q ≠ "")
    (hc : inKeys PROVIDERS country = true) (env : Env) (team : List Agent)
    (auth : String) (bodyE : Except Unit JObj) :
    (∀ rand : Draws,
      fetch ⟨"GET", "/api/v1/companies/search", [("q", q), ("country", country)],
          auth, bodyE⟩ env rand team =
        Except.ok ⟨200, JValue.jo
          [("company_name", JValue.js q),
           ("country", JValue.js country),
           ("available", JValue.jb (searchChoices.getD rand.searchDraw.val true)),
           ("suggestions", JValue.ja
              (if searchChoices.getD rand.searchDraw.val true then []
               else [JValue.js "Tech Solutions Ltd",
                     JValue.js "Digital Ventures Ltd"]))]⟩) ∧
    (∃ d1 d2 : Fin 3, searchChoices.getD d1.val true = true ∧
        searchChoices.getD d2.val true = false) ∧
    (∀ rand : Draws,
      jField (respBody (fetch ⟨"GET", "/api/v1/companies/search",
          [("q", q), ("country", country)], auth, bodyE⟩ env rand team))
          "suggestions" = some (JValue.ja []) ↔
      jField (respBody (fetch ⟨"GET", "/api/v1/companies/search",
          [("q", q), ("country", country)], auth, bodyE⟩ env rand team))
          "available" = some (JValue.jb true)) := by
  have hmain : ∀ rand : Draws,
      fetch ⟨"GET", "/api/v1/companies/search", [("q", q), ("country", country)],
          auth, bodyE⟩ env rand team =
        Except.ok ⟨200, JValue.jo
          [("company_name", JValue.js q),
           ("country", JValue.js country),
           ("available", JValue.jb (searchChoices.getD rand.searchDraw.val true)),
           ("suggestions", JValue.ja
              (if searchChoices.getD rand.searchDraw.val true then []
               else [JValue.js "Tech Solutions Ltd",
                     JValue.js "Digital Ventures Ltd"]))]⟩ := by
    intro rand
    unfold fetch
    simp [hq, hc, lookupD,
      (by decide : strLeads "/api/v1/countries/" "/api/v1/companies/search" = false),
      (by decide : strLeads "/api/v1/orders/" "/api/v1/companies/search" = false)]
  refine ⟨hmain, ⟨0, 2, by decide, by decide⟩, ?_⟩
  intro rand
  rw [hmain rand]
  cases hd : searchChoices.getD rand.searchDraw.val true <;>
    simp [hd, respBody, jField]

/-- Witness for C6 at the query `Acme` in country `uk`, evaluating the first
and third draws. -/
theorem search_random_spec_witness :
    ("Acme" ≠ "") ∧ (inKeys PROVIDERS "uk" = true) ∧
    (∃ d1 d2 : Fin 3, searchChoices.getD d1.val true = true ∧
        searchChoices.getD d2.val true = false) ∧
    fetch ⟨"GET", "/api/v1/companies/search", [("q", "Acme"), ("country", "uk")],
        "", Except.ok []⟩ defaultEnv defaultDraws initialTeam =
      Except.ok ⟨200, JValue.jo
        [("company_name", JValue.js "Acme"),
         ("country", JValue.js "uk"),
         ("available", JValue.jb (searchChoices.getD (defaultDraws.searchDraw).val true)),
         ("suggestions", JValue.ja
            (if searchChoices.getD (defaultDraws.searchDraw).val true then []
             else [JValue.js "Tech Solutions Ltd",
                   JValue.js "Digital Ventures Ltd"]))]⟩ :=
  ⟨by decide, by decide,
   (search_random_spec "Acme" "uk" (by decide) (by decide) defaultEnv initialTeam
     "" (Except.ok [])).2.1,
   (search_random_spec "Acme" "uk" (by decide) (by decide) defaultEnv initialTeam
     "" (Except.ok [])).1 defaultDraws⟩

/-- C7: POST `/api/v1/orders` is not idempotent: the returned order id is
`ORD-` followed by the fresh uppercased random hex draw and is independent of
the request body, so draws that differ give different ids; likewise the
payment id is `PAY-` plus a fresh draw, and the deposit address embeds the
first 30 hex characters of its own fresh draw, so distinct draws (differing,
for the address, within the first 15 bytes) give different payment ids and
addresses. -/
theorem fresh_ids_spec :
    (∀ (env : Env) (rand : Draws) (team : List Agent)
        (qp : List (String × String)) (auth : String) (body : JObj),
      strHasSeg "Bearer" auth = true →
      inKeys PROVIDERS (getStr body "country" "uk") = true →
      pyStrip (getStr body "company_name" "") ≠ "" →
      jFieldIn (respBody (fetch ⟨"POST", "/api/v1/orders", qp, auth,
          Except.ok body⟩ env rand team)) "order" "id" =
        some (JValue.js ("ORD-" ++ pyUpper (token_hex rand.orderBytes)))) ∧
    (∀ r1 r2 : List (Fin 256), r1 ≠ r2 →
      ("ORD-" ++ pyUpper (token_hex r1)) ≠ ("ORD-" ++ pyUpper (token_hex r2))) ∧
    (∀ (env : Env) (rand : Draws) (team : List Agent)
        (qp : List (String × String)) (auth : String) (body : JObj),
      strHasSeg "Bearer" auth = true →
      getStr body "order_id" "" ≠ "" →
      ¬ numToRat (getNumJ body "amount" (JValue.ji 0)) ≤ 0 →
      jFieldIn (respBody (fetch ⟨"POST", "/api/v1/payments/create", qp, auth,
          Except.ok body⟩ env rand team)) "payment" "id" =
        some (JValue.js ("PAY-" ++ pyUpper (token_hex rand.payBytes))) ∧
      jFieldIn (respBody (fetch ⟨"POST", "/api/v1/payments/create", qp, auth,
          Except.ok body⟩ env rand team)) "payment" "address" =
        some (JValue.js ("TX" ++ pyTake 30 (token_hex rand.addrBytes) ++ "..."))) ∧
    (∀ r1 r2 : List (Fin 256), r1 ≠ r2 →
      ("PAY-" ++ pyUpper (token_hex r1)) ≠ ("PAY-" ++ pyUpper (token_hex r2))) ∧
    (∀ a1 a2 : List (Fin 256), a1.take 15 ≠ a2.take 15 →
      ("TX" ++ pyTake 30 (token_hex a1) ++ "...") ≠
        ("TX" ++ pyTake 30 (token_hex a2) ++ "...")) := by
  refine ⟨?_, ?_, ?_, ?_, ?_⟩
  · intro env rand team qp auth body hA hC hN
    unfold fetch
    simp [hA, hC, hN, jFieldIn, jField, respBody]
  · intro r1 r2 hne h
    exact hne (pyUpper_token_hex_inj r1 r2 (string_append_left_cancel "ORD-" _ _ h))
  · intro env rand team qp auth body hA hO hAm
    unfold fetch
    simp [hA, hO, hAm, jFieldIn, jField, respBody]
  · intro r1 r2 hne h
    exact hne (pyUpper_token_hex_inj r1 r2 (string_append_left_cancel "PAY-" _ _ h))
  · intro a1 a2 hne h
    apply hne
    have h1 : pyTake 30 (token_hex a1) ++ "..." = pyTake 30 (token_hex a2) ++ "..." :=
      string_append_left_cancel "TX" _ _ (by
        rw [String.append_assoc, String.append_assoc] at h
        exact h)
    have h2 : pyTake 30 (token_hex a1) = pyTake 30 (token_hex a2) :=
      string_append_right_cancel "..." _ _ h1
    have h3 : (a1.flatMap byteHex).take 30 = (a2.flatMap byteHex).take 30 :=
      congrArg String.data h2
    rw [show (30 : Nat) = 2 * 15 by norm_num, take_flatMap_byteHex,
      take_flatMap_byteHex] at h3
    exact flatMap_byteHex_inj _ _ h3

/-- Witness for C7: concrete draws and valid order/payment requests. -/
theorem fresh_ids_spec_witness :
    (strHasSeg "Bearer" "Bearer t" = true ∧
     inKeys PROVIDERS (getStr [("company_name", JValue.js "Acme")] "country" "uk") = true ∧
     pyStrip (getStr [("company_name", JValue.js "Acme")] "company_name" "") ≠ "" ∧
     jFieldIn (respBody (fetch ⟨"POST", "/api/v1/orders", [], "Bearer t",
        Except.ok [("company_name", JValue.js "Acme")]⟩ defaultEnv defaultDraws
        initialTeam)) "order" "id" =
       some (JValue.js ("ORD-" ++ pyUpper (token_hex defaultDraws.orderBytes)))) ∧
    (([0] : List (Fin 256)) ≠ [1] ∧
     ("ORD-" ++ pyUpper (token_hex [0])) ≠ ("ORD-" ++ pyUpper (token_hex [1]))) ∧
    (getStr [("order_id", JValue.js "O1"), ("amount", JValue.ji 5)] "order_id" "" ≠ "" ∧
     ¬ numToRat (getNumJ [("order_id", JValue.js "O1"), ("amount", JValue.ji 5)]
        "amount" (JValue.ji 0)) ≤ 0 ∧
     jFieldIn (respBody (fetch ⟨"POST", "/api/v1/payments/create", [], "Bearer t",
        Except.ok [("order_id", JValue.js "O1"), ("amount", JValue.ji 5)]⟩
        defaultEnv defaultDraws initialTeam)) "payment" "id" =
       some (JValue.js ("PAY-" ++ pyUpper (token_hex defaultDraws.payBytes)))) ∧
    (("PAY-" ++ pyUpper (token_hex [0])) ≠ ("PAY-" ++ pyUpper (token_hex [1]))) ∧
    (([2, 0] : List (Fin 256)).take 15 ≠ ([3, 0] : List (Fin 256)).take 15 ∧
     ("TX" ++ pyTake 30 (token_hex [2, 0]) ++ "...") ≠
       ("TX" ++ pyTake 30 (token_hex [3, 0]) ++ "...")) :=
  ⟨⟨by decide, by decide, by decide,
    fresh_ids_spec.1 defaultEnv defaultDraws initialTeam [] "Bearer t"
      [("company_name", JValue.js "Acme")] (by decide) (by decide) (by decide)⟩,
   ⟨by decide, fresh_ids_spec.2.1 [0] [1] (by decide)⟩,
   ⟨by decide, by decide,
    (fresh_ids_spec.2.2.1 defaultEnv defaultDraws initialTeam [] "Bearer t"
      [("order_id", JValue.js "O1"), ("amount", JValue.ji 5)] (by decide)
      (by decide) (by decide)).1⟩,
   fresh_ids_spec.2.2.2.1 [0] [1] (by decide),
   ⟨by decide, fresh_ids_spec.2.2.2.2 [2, 0] [3, 0] (by decide)⟩⟩

/-- C8 counterexample: a POST to `/api/v1/agents/sales` whose body is not
valid JSON is not rejected: the handler swallows the parse failure
(`except: body = {}`) and returns HTTP 200, refuting the claim that every
JSON-parsing POST endpoint returns 400 on malformed bodies. -/
theorem invalid_json_cex :
    httpStatusOf (fetch ⟨"POST", "/api/v1/agents/sales", [], "", Except.error ()⟩
        defaultEnv defaultDraws initialTeam) = some 200 ∧ (200 : Nat) ≠ 400 :=
  ⟨rfl, by decide⟩

/-- C8 amended: a POST with a malformed JSON body yields HTTP 400 with the
fixed body `{"error": "Invalid JSON"}` on the non-agent JSON-parsing
endpoints — auth register/login, pricing calculate and the payment webhook
unconditionally, and orders, incorporation and payment creation once the
`Bearer` gate is passed — while the `/api/v1/agents/*` task endpoints
swallow the parse failure, treat the body as empty, and return HTTP 200. -/
theorem invalid_json_spec :
    (∀ p ∈ ["/api/v1/auth/register", "/api/v1/auth/login",
            "/api/v1/pricing/calculate", "/api/v1/payments/webhook"],
      ∀ (env : Env) (rand : Draws) (team : List Agent)
        (qp : List (String × String)) (auth : String),
      fetch ⟨"POST", p, qp, auth, Except.error ()⟩ env rand team =
        Except.ok ⟨400, errDict "Invalid JSON"⟩) ∧
    (∀ p ∈ ["/api/v1/orders", "/api/v1/companies/incorporate",
            "/api/v1/payments/create"],
      ∀ (env : Env) (rand : Draws) (team : List Agent)
        (qp : List (String × String)) (auth : String),
      strHasSeg "Bearer" auth = true →
      fetch ⟨"POST", p, qp, auth, Except.error ()⟩ env rand team =
        Except.ok ⟨400, errDict "Invalid JSON"⟩) ∧
    (∀ p ∈ ["/api/v1/agents/sales", "/api/v1/agents/support",
            "/api/v1/agents/register", "/api/v1/agents/kyc",
            "/api/v1/agents/payment"],
      ∀ (env : Env) (rand : Draws) (team : List Agent)
        (qp : List (String × String)) (auth : String),
      httpStatusOf (fetch ⟨"POST", p, qp, auth, Except.error ()⟩ env rand team) =
        some 200) := by
  refine ⟨?_, ?_, ?_⟩
  · intro p hp env rand team qp auth
    simp only [List.mem_cons, List.not_mem_nil, or_false] at hp
    rcases hp with hp | hp | hp | hp <;> subst hp <;> unfold fetch <;>
      simp [error_response]
  · intro p hp env rand team qp auth hB
    simp only [List.mem_cons, List.not_mem_nil, or_false] at hp
    rcases hp with hp | hp | hp <;> subst hp <;> unfold fetch <;>
      simp [hB, error_response]
  · intro p hp env rand team qp auth
    simp only [List.mem_cons, List.not_mem_nil, or_false] at hp
    rcases hp with hp | hp | hp | hp | hp <;> subst hp <;> unfold fetch <;>
      simp [agentTaskResponse, httpStatusOf]

/-- Witness for C8 amended: the login endpoint, the orders endpoint with a
bearer header, and the sales agent endpoint, all on a malformed body. -/
theorem invalid_json_spec_witness :
    ("/api/v1/auth/login" ∈ ["/api/v1/auth/register", "/api/v1/auth/login",
        "/api/v1/pricing/calculate", "/api/v1/payments/webhook"]) ∧
    fetch ⟨"POST", "/api/v1/auth/login", [], "", Except.error ()⟩ defaultEnv
        defaultDraws initialTeam = Except.ok ⟨400, errDict "Invalid JSON"⟩ ∧
    ("/api/v1/orders" ∈ ["/api/v1/orders", "/api/v1/companies/incorporate",
        "/api/v1/payments/create"]) ∧
    (strHasSeg "Bearer" "Bearer t" = true) ∧
    fetch ⟨"POST", "/api/v1/orders", [], "Bearer t", Except.error ()⟩ defaultEnv
        defaultDraws initialTeam = Except.ok ⟨400, errDict "Invalid JSON"⟩ ∧
    ("/api/v1/agents/sales" ∈ ["/api/v1/agents/sales", "/api/v1/agents/support",
        "/api/v1/agents/register", "/api/v1/agents/kyc",
        "/api/v1/agents/payment"]) ∧
    httpStatusOf (fetch ⟨"POST", "/api/v1/agents/sales", [], "", Except.error ()⟩
        defaultEnv defaultDraws initialTeam) = some 200 :=
  ⟨by decide,
   invalid_json_spec.1 "/api/v1/auth/login" (by decide) defaultEnv defaultDraws
     initialTeam [] "",
   by decide, by decide,
   invalid_json_spec.2.1 "/api/v1/orders" (by decide) defaultEnv defaultDraws
     initialTeam [] "Bearer t" (by decide),
   by decide,
   invalid_json_spec.2.2 "/api/v1/agents/sales" (by decide) defaultEnv
     defaultDraws initialTeam [] ""⟩

/-- Each byte contributes two characters to the hex token. -/
theorem length_flatMap_byteHex (l : List (Fin 256)) :
    (l.flatMap byteHex).length = 2 * l.length := by
  induction l with
  | nil => simp
  | cons a as ih =>
      rw [flatMap_byteHex_cons]
      simp only [List.length_cons, ih]
      omega

/-- C9: registration rejects passwords shorter than 6 characters (after the
non-empty email/password check) with the fixed 400 error, while login applies
no length check: every non-empty email/password pair yields HTTP 200 with a
fresh token, and a token drawn as `secrets.token_hex(32)` has 64 characters,
all lowercase hex digits. -/
theorem register_login_spec :
    (∀ (env : Env) (rand : Draws) (team : List Agent)
        (qp : List (String × String)) (auth : String) (body : JObj),
      pyStrip (pyLower (getStr body "email" "")) ≠ "" →
      getStr body "password" "" ≠ "" →
      (getStr body "password" "").length < 6 →
      fetch ⟨"POST", "/api/v1/auth/register", qp, auth, Except.ok body⟩
          env rand team =
        Except.ok ⟨400, errDict "Password must be at least 6 characters"⟩) ∧
    (∀ (env : Env) (rand : Draws) (team : List Agent)
        (qp : List (String × String)) (auth : String) (body : JObj),
      pyStrip (pyLower (getStr body "email" "")) ≠ "" →
      getStr body "password" "" ≠ "" →
      fetch ⟨"POST", "/api/v1/auth/login", qp, auth, Except.ok body⟩
          env rand team =
        Except.ok ⟨200, JValue.jo
          [("status", JValue.js "ok"),
           ("token", JValue.js (token_hex rand.authBytes)),
           ("user", JValue.jo [("email", JValue.js
              (pyStrip (pyLower (getStr body "email" ""))))])]⟩) ∧
    (∀ bytes : List (Fin 256), bytes.length = 32 →
      (token_hex bytes).length = 64 ∧
      ∀ c ∈ (token_hex bytes).data, c ∈ hexDigitChars) := by
  refine ⟨?_, ?_, ?_⟩
  · intro env rand team qp auth body hE hP hL
    unfold fetch
    simp [hE, hP, hL, error_response]
  · intro env rand team qp auth body hE hP
    unfold fetch
    simp [hE, hP]
  · intro bytes hlen
    constructor
    · show (bytes.flatMap byteHex).length = 64
      rw [length_flatMap_byteHex, hlen]
    · exact flatMap_byteHex_mem bytes

/-- Witness for C9: a five-character password at registration, the same pair
at login, and a concrete 32-byte draw. -/
theorem register_login_spec_witness :
    (pyStrip (pyLower (getStr [("email", JValue.js "A@b.c"),
        ("password", JValue.js "12345")] "email" "")) ≠ "" ∧
     getStr [("email", JValue.js "A@b.c"), ("password", JValue.js "12345")]
        "password" "" ≠ "" ∧
     (getStr [("email", JValue.js "A@b.c"), ("password", JValue.js "12345")]
        "password" "").length < 6 ∧
     fetch ⟨"POST", "/api/v1/auth/register", [], "",
        Except.ok [("email", JValue.js "A@b.c"), ("password", JValue.js "12345")]⟩
        defaultEnv defaultDraws initialTeam =
      Except.ok ⟨400, errDict "Password must be at least 6 characters"⟩) ∧
    (fetch ⟨"POST", "/api/v1/auth/login", [], "",
        Except.ok [("email", JValue.js "A@b.c"), ("password", JValue.js "12345")]⟩
        defaultEnv defaultDraws initialTeam =
      Except.ok ⟨200, JValue.jo
        [("status", JValue.js "ok"),
         ("token", JValue.js (token_hex defaultDraws.authBytes)),
         ("user", JValue.jo [("email", JValue.js
            (pyStrip (pyLower (getStr [("email", JValue.js "A@b.c"),
              ("password", JValue.js "12345")] "email" ""))))])]⟩) ∧
    ((List.replicate 32 (0 : Fin 256)).length = 32 ∧
     (token_hex (List.replicate 32 (0 : Fin 256))).length = 64 ∧
     ∀ c ∈ (token_hex (List.replicate 32 (0 : Fin 256))).data,
       c ∈ hexDigitChars) :=
  ⟨⟨by decide, by decide, by decide,
    register_login_spec.1 defaultEnv defaultDraws initialTeam [] ""
      [("email", JValue.js "A@b.c"), ("password", JValue.js "12345")]
      (by decide) (by decide) (by decide)⟩,
   register_login_spec.2.1 defaultEnv defaultDraws initialTeam [] ""
     [("email", JValue.js "A@b.c"), ("password", JValue.js "12345")]
     (by decide) (by decide),
   ⟨by decide,
    (register_login_spec.2.2 (List.replicate 32 (0 : Fin 256)) (by decide)).1,
    (register_login_spec.2.2 (List.replicate 32 (0 : Fin 256)) (by decide)).2⟩⟩
